import Mathlib

/-!
# current-weather-server: threshold registry, classification, request checks, log writer

A shallow embedding of `data/currentweather.go`, of the parts of
`weatherserver.go` that check a request and configure the thresholds, and of
`logging/logutil.go`.

* Go's `float64` is modelled as IEEE-754 binary64 with round-to-nearest-even: a
  value is NaN, one of the two infinities, or the finite rational it denotes,
  and every arithmetic operation rounds the exact rational result to the
  nearest binary64 value. The two zeros are identified: the code never divides
  by a variable, so the sign of a zero is not observable by any comparison.
* A Go `string` is modelled as a `String`; the code compares strings with
  ASCII literals, splits and joins them at commas and lower-cases them, all of
  which act on Unicode text rune by rune.
* Package variables (`subjectiveTempMap`, the variables of package logging) are
  passed explicitly: functions that read them take them as an argument,
  functions that assign them return them. The clock, `os.Stat` and
  `os.OpenFile` are inputs of the logging functions, and what these do to the
  outside world is returned as a list of effects.
* The standard-library functions the code calls (`strconv.ParseFloat`,
  `strings.Split`, `strings.Join`, `strings.ToLower`) are modelled after their
  documented behaviour; the Unicode case table and the float formatting of
  `fmt` are parameters.
-/

namespace Go

/-! ## float64 -/

/-- Values of Go's `float64`. A finite value is carried as the rational number
it denotes; the results of the operations below are always binary64 values. -/
inductive Float64 where
  | nan : Float64
  | ninf : Float64
  | pinf : Float64
  | fin : ℚ → Float64
  deriving DecidableEq, Repr

/-- Number of binary digits of `n`, by halving (`fuel` bounds the recursion). -/
def bitLen : Nat → Nat → Nat
  | 0, _ => 0
  | fuel + 1, n => if n = 0 then 0 else bitLen fuel (n / 2) + 1

/-- Binary exponent of a positive rational: the `e` with `2^e ≤ a < 2^(e+1)`. -/
def ilog2 (a : ℚ) : ℤ :=
  let e0 : ℤ := (bitLen a.num.natAbs a.num.natAbs : ℤ) - (bitLen a.den a.den : ℤ)
  if a < (2 : ℚ) ^ e0 then e0 - 1 else e0

/-- Exponent of the unit in the last place of the binary64 values around `q`:
53 significant bits for normal numbers, the fixed spacing `2^-1074` for
subnormal numbers and zero. -/
def ulpExp (q : ℚ) : ℤ :=
  if q = 0 then -1074 else max (ilog2 |q|) (-1022) - 52

/-- Round a rational to the nearest integer, ties to the even one. -/
def rne (s : ℚ) : ℤ :=
  let n := ⌊s⌋
  let r := s - n
  if r < 1 / 2 then n else if 1 / 2 < r then n + 1 else if n % 2 = 0 then n else n + 1

/-- Round a rational to the nearest multiple of its unit in the last place. -/
def roundFin (q : ℚ) : ℚ :=
  (rne (q / (2 : ℚ) ^ ulpExp q) : ℚ) * (2 : ℚ) ^ ulpExp q

/-- The binary64 value of an exact result: rounded to nearest even, and
replaced by an infinity when the rounded magnitude reaches `2^1024`. -/
def roundQ (q : ℚ) : Float64 :=
  let v := roundFin q
  if (2 : ℚ) ^ (1024 : ℤ) ≤ v then Float64.pinf
  else if v ≤ -(2 : ℚ) ^ (1024 : ℤ) then Float64.ninf
  else Float64.fin v

namespace Float64

/-- Go's `x < y` on float64: false as soon as one side is NaN. -/
def lt : Float64 → Float64 → Prop
  | nan, _ => False
  | _, nan => False
  | ninf, ninf => False
  | ninf, _ => True
  | _, ninf => False
  | pinf, _ => False
  | fin _, pinf => True
  | fin a, fin b => a < b

/-- Go's `x <= y` on float64: false as soon as one side is NaN. -/
def le : Float64 → Float64 → Prop
  | nan, _ => False
  | _, nan => False
  | ninf, _ => True
  | _, pinf => True
  | pinf, _ => False
  | fin _, ninf => False
  | fin a, fin b => a ≤ b

instance : LT Float64 := ⟨lt⟩

instance : LE Float64 := ⟨le⟩

instance decLt (x y : Float64) : Decidable (x < y) := by
  cases x <;> cases y <;> simp only [LT.lt, lt] <;> infer_instance

instance decLe (x y : Float64) : Decidable (x ≤ y) := by
  cases x <;> cases y <;> simp only [LE.le, le] <;> infer_instance

/-- Go's `x + y`. -/
def add : Float64 → Float64 → Float64
  | nan, _ => nan
  | _, nan => nan
  | pinf, ninf => nan
  | ninf, pinf => nan
  | pinf, _ => pinf
  | ninf, _ => ninf
  | fin _, pinf => pinf
  | fin _, ninf => ninf
  | fin a, fin b => roundQ (a + b)

/-- Go's `x - y`. -/
def sub : Float64 → Float64 → Float64
  | nan, _ => nan
  | _, nan => nan
  | pinf, pinf => nan
  | ninf, ninf => nan
  | pinf, _ => pinf
  | ninf, _ => ninf
  | fin _, pinf => ninf
  | fin _, ninf => pinf
  | fin a, fin b => roundQ (a - b)

/-- Sign of an infinity times a finite factor; NaN for a zero factor. -/
def infTimes (positive : Bool) (b : ℚ) : Float64 :=
  if b = 0 then nan else if decide (0 < b) = positive then pinf else ninf

/-- Go's `x * y`. -/
def mul : Float64 → Float64 → Float64
  | nan, _ => nan
  | _, nan => nan
  | pinf, pinf => pinf
  | pinf, ninf => ninf
  | ninf, pinf => ninf
  | ninf, ninf => pinf
  | pinf, fin b => infTimes true b
  | ninf, fin b => infTimes false b
  | fin a, pinf => infTimes true a
  | fin a, ninf => infTimes false a
  | fin a, fin b => roundQ (a * b)

/-- Go's `x / y`. A finite value divided by zero is an infinity whose sign
depends on the sign of the zero, which this model does not carry; it is taken
as the sign of the dividend. The embedded code divides by the literals `5.0`
and `9.0` only. -/
def div : Float64 → Float64 → Float64
  | nan, _ => nan
  | _, nan => nan
  | pinf, pinf => nan
  | pinf, ninf => nan
  | ninf, pinf => nan
  | ninf, ninf => nan
  | pinf, fin b => if 0 ≤ b then pinf else ninf
  | ninf, fin b => if 0 ≤ b then ninf else pinf
  | fin _, pinf => fin 0
  | fin _, ninf => fin 0
  | fin a, fin b =>
    if b = 0 then (if a = 0 then nan else if 0 < a then pinf else ninf)
    else roundQ (a / b)

instance : Add Float64 := ⟨add⟩

instance : Sub Float64 := ⟨sub⟩

instance : Mul Float64 := ⟨mul⟩

instance : Div Float64 := ⟨div⟩

/-- The float64 value of a Go numeric literal or constant with exact value `q`. -/
def lit (q : ℚ) : Float64 := roundQ q

end Float64

/-! ## strings and unicode (standard library) -/

/-- Library behaviour that the repository's code calls and that is not part of
the repository: the Unicode lower-case table for runes above `MaxASCII`, and
the text `fmt` prints for a float64 under the verb `%v`. -/
structure Lib where
  toLowerTable : Char → Char
  formatFloat : Float64 → String

/-- Go's `unicode.ToLower`: ASCII letters are handled directly, every other
rune goes through the case table. -/
def unicodeToLower (L : Lib) (r : Char) : Char :=
  if r.toNat ≤ 0x7F then
    (if 'A' ≤ r ∧ r ≤ 'Z' then Char.ofNat (r.toNat + 32) else r)
  else L.toLowerTable r

/-- Go's `strings.ToLower`: every rune mapped through `unicode.ToLower`. -/
def stringsToLower (L : Lib) (s : String) : String :=
  String.mk (s.data.map (unicodeToLower L))

/-- Characters of `strings.Join(elems, sep)`. -/
def joinChars (sep : List Char) : List (List Char) → List Char
  | [] => []
  | [x] => x
  | x :: y :: rest => x ++ sep ++ joinChars sep (y :: rest)

/-- Go's `strings.Join`. -/
def stringsJoin (elems : List String) (sep : String) : String :=
  String.mk (joinChars sep.data (elems.map String.data))

/-- Pieces of a character list between the occurrences of `sep`; the empty
list gives one empty piece. -/
def splitChars (sep : Char) : List Char → List (List Char)
  | [] => [[]]
  | c :: cs =>
    if c = sep then [] :: splitChars sep cs
    else
      match splitChars sep cs with
      | [] => [[c]]
      | p :: ps => (c :: p) :: ps

/-- Go's `strings.Split(s, sep)` for a separator of one character, which is how
the repository calls it (`","`). -/
def stringsSplit (s : String) (sep : Char) : List String :=
  (splitChars sep s.data).map String.mk

/-! ## strconv.ParseFloat (standard library) -/

namespace strconv

/-- The two sentinel errors `strconv.ErrSyntax` and `strconv.ErrRange`. -/
inductive ErrKind where
  | ErrSyntax : ErrKind
  | ErrRange : ErrKind
  deriving DecidableEq, Repr

/-- Go's `strconv.NumError`: the failing function, the input and the cause. -/
structure NumError where
  Func : String
  Num : String
  Err : ErrKind
  deriving DecidableEq, Repr

/-- The helper `lower(c)` of strconv: `c | ('x' - 'X')`. -/
def lower (c : Char) : Char := Char.ofNat (c.toNat ||| 0x20)

/-- Whether `c` is one of `'0'..'9'`. -/
def isDigit (c : Char) : Bool := decide ('0' ≤ c ∧ c ≤ '9')

/-- Whether `c` is one of `a..f` or `A..F`. -/
def isHexLetter (c : Char) : Bool := decide ('a' ≤ lower c ∧ lower c ≤ 'f')

/-- The helper `commonPrefixLenIgnoreCase(s, prefix)` of strconv; the second
argument is in lower case. -/
def commonPrefixLenIgnoreCase : List Char → List Char → Nat
  | c :: s, p :: ps =>
    let c1 := if 'A' ≤ c ∧ c ≤ 'Z' then Char.ofNat (c.toNat + 32) else c
    if c1 = p then commonPrefixLenIgnoreCase s ps + 1 else 0
  | _, _ => 0

/-- The helper `special(s)` of strconv: the value and the number of characters
used when `s` starts with a possibly signed `inf` or `infinity`, or with
`nan`, case ignored. -/
def special (s : List Char) : Option (Float64 × Nat) :=
  let infinity (sign : Float64) (nsign : Nat) (t : List Char) : Option (Float64 × Nat) :=
    let n0 := commonPrefixLenIgnoreCase t "infinity".data
    let n := if 3 < n0 ∧ n0 < 8 then 3 else n0
    if n = 3 ∨ n = 8 then some (sign, nsign + n) else none
  match s with
  | [] => none
  | c :: t =>
    if c = '+' then infinity Float64.pinf 1 t
    else if c = '-' then infinity Float64.ninf 1 t
    else if c = 'i' ∨ c = 'I' then infinity Float64.pinf 0 s
    else if c = 'n' ∨ c = 'N' then
      (if commonPrefixLenIgnoreCase s "nan".data = 3 then some (Float64.nan, 3) else none)
    else none

/-- Running state of the mantissa loop of `readFloat`: the digits read so far
as a number `mant` in the base, their count `nd` after the leading zeros, the
position `dp` of the point, and the flags of the loop. The source keeps the
first 19 digits (16 in base 16) and a flag for the dropped ones, and converts
from all the digits; the model keeps them all. -/
structure Mantissa where
  mant : Nat
  nd : Nat
  dp : Int
  sawdot : Bool
  sawdigits : Bool
  underscores : Bool
  deriving DecidableEq, Repr

/-- The mantissa loop of `readFloat`; returns the state and the unread rest. -/
def readMantissa (hex : Bool) : List Char → Mantissa → Mantissa × List Char
  | [], st => (st, [])
  | c :: cs, st =>
    if c = '_' then readMantissa hex cs { st with underscores := true }
    else if c = '.' then
      (if st.sawdot then (st, c :: cs)
       else readMantissa hex cs { st with sawdot := true, dp := st.nd })
    else if isDigit c then
      (if c = '0' ∧ st.nd = 0 then
        readMantissa hex cs { st with sawdigits := true, dp := st.dp - 1 }
       else
        readMantissa hex cs { st with
          sawdigits := true, nd := st.nd + 1,
          mant := st.mant * (if hex then 16 else 10) + (c.toNat - 48) })
    else if hex ∧ isHexLetter c then
      readMantissa hex cs { st with
        sawdigits := true, nd := st.nd + 1,
        mant := st.mant * 16 + ((lower c).toNat - 97 + 10) }
    else (st, c :: cs)

/-- The exponent loop of `readFloat`: digits and underscores; the exponent
stops growing once it has reached 10000. -/
def readExponent : List Char → Nat → Bool → Nat × Bool × List Char
  | [], e, u => (e, u, [])
  | c :: cs, e, u =>
    if c = '_' then readExponent cs e true
    else if isDigit c then
      readExponent cs (if e < 10000 then e * 10 + (c.toNat - 48) else e) u
    else (e, u, c :: cs)

/-- The scan of `underscoreOK` over the number proper; `saw` is the class of
the last character: `'0'` digit, `'_'` underscore, `'!'` other, `'^'` start. -/
def underscoreScan (hex : Bool) : List Char → Char → Bool
  | [], saw => saw ≠ '_'
  | c :: cs, saw =>
    if isDigit c ∨ (hex ∧ isHexLetter c) then underscoreScan hex cs '0'
    else if c = '_' then (if saw ≠ '0' then false else underscoreScan hex cs '_')
    else if saw = '_' then false
    else underscoreScan hex cs '!'

/-- The helper `underscoreOK(s)` of strconv: underscores stand only between
digits, or between a base prefix and a digit. -/
def underscoreOK (s : List Char) : Bool :=
  let t := match s with
    | c :: r => if c = '-' ∨ c = '+' then r else s
    | [] => s
  match t with
  | a :: b :: r =>
    if a = '0' ∧ (lower b = 'b' ∨ lower b = 'o' ∨ lower b = 'x') then
      underscoreScan (lower b = 'x') r '0'
    else underscoreScan false t '^'
  | _ => underscoreScan false t '^'

/-- What `readFloat` extracts from a well-formed prefix: the sign, the exact
value of the digits with their exponent, and the number of characters used. -/
structure Scanned where
  neg : Bool
  value : ℚ
  used : Nat
  deriving DecidableEq, Repr

/-- The helper `readFloat(s)` of strconv: sign, digits in base 10 or (after
`0x`) 16, and an exponent that is optional in base 10 and required in base 16.
Returns nothing when no well-formed number starts `s`. -/
def readFloat (s : List Char) : Option Scanned :=
  match s with
  | [] => none
  | c0 :: _ =>
    let neg := c0 = '-'
    let s1 := if c0 = '+' ∨ c0 = '-' then s.drop 1 else s
    let hex : Bool := match s1 with
      | a :: b :: _ :: _ => a = '0' ∧ lower b = 'x'
      | _ => false
    let s2 := if hex then s1.drop 2 else s1
    let (m, rest) := readMantissa hex s2 ⟨0, 0, 0, false, false, false⟩
    if ¬ m.sawdigits then none
    else
      let dp0 : Int := if m.sawdot then m.dp else m.nd
      let scale : Int := if hex then 4 else 1
      let expChar : Char := if hex then 'p' else 'e'
      let finish (dp : Int) (underscores : Bool) (rest1 : List Char) : Option Scanned :=
        let used := s.length - rest1.length
        if underscores ∧ ¬ underscoreOK (s.take used) then none
        else
          let mag : ℚ := (m.mant : ℚ) * (if hex then (2 : ℚ) else 10) ^ (dp - scale * m.nd)
          some ⟨neg, if neg then -mag else mag, used⟩
      match rest with
      | c :: r =>
        if lower c = expChar then
          match r with
          | [] => none
          | d :: r1 =>
            let esign : Int := if d = '-' then -1 else 1
            let r2 := if d = '+' ∨ d = '-' then r1 else r
            match r2 with
            | [] => none
            | d2 :: _ =>
              if ¬ isDigit d2 then none
              else
                let (e, u, r3) := readExponent r2 0 m.underscores
                finish (scale * dp0 + (e : Int) * esign) u r3
        else if hex then none
        else finish (scale * dp0) m.underscores rest
      | [] => if hex then none else finish (scale * dp0) m.underscores rest

/-- Go's `strconv.ParseFloat(s, 64)`: the value and the error (absent on
success). A special value or a well-formed number must use all of `s`; the
number is rounded to the nearest float64, and a magnitude that rounds to an
infinity is returned as that infinity together with `ErrRange`. -/
def ParseFloat (s : String) : Float64 × Option NumError :=
  let syntaxError : Float64 × Option NumError :=
    (Float64.fin 0, some ⟨"ParseFloat", s, ErrKind.ErrSyntax⟩)
  match special s.data with
  | some (f, n) => if n ≠ s.data.length then syntaxError else (f, none)
  | none =>
    match readFloat s.data with
    | none => syntaxError
    | some sc =>
      match roundQ sc.value with
      | Float64.fin v => if sc.used ≠ s.data.length then syntaxError else (Float64.fin v, none)
      | f => if sc.used ≠ s.data.length then syntaxError
             else (f, some ⟨"ParseFloat", s, ErrKind.ErrRange⟩)

end strconv

end Go

deriving instance DecidableEq for Except

/-! ## package data (`data/currentweather.go`) -/

namespace data

open Go

/-- The package variable `subjectiveTempMap`, a `map[string][]float64`: absent
while the variable is nil, otherwise the key/value pairs of the map. -/
abbrev Registry := Option (List (String × List Float64))

/-- Go's `m[key]` on the registry: the zero value (a nil slice) when the map is
nil or has no such key. -/
def Registry.get (reg : Registry) (key : String) : List Float64 :=
  match reg with
  | none => []
  | some m =>
    match m.find? (fun kv => kv.1 = key) with
    | some kv => kv.2
    | none => []

/-- Go's `m[key] = v` on a non-nil map. -/
def mapSet (m : List (String × List Float64)) (key : String) (v : List Float64) :
    List (String × List Float64) :=
  (key, v) :: m.filter (fun kv => kv.1 ≠ key)

/-- Error values built by the package; each stands for the `fmt.Errorf` call
with the message shown. -/
inductive Error where
  /-- "Cold temp (%v) must be less than cool (%v).  Cool temp must be less than warm (%v)." -/
  | order (cold cool warm : Float64) : Error
  /-- "Invalid number of temperatures for coldCoolWarmF: %v" -/
  | count (n : Nat) : Error
  /-- "Error parsing cold value in coldCoolWarmF: %v" -/
  | parseCold (err : strconv.NumError) : Error
  /-- "Error parsing cool value in coldCoolWarmF: %v" -/
  | parseCool (err : strconv.NumError) : Error
  /-- "Error parsing warm value in coldCoolWarmF: %v" -/
  | parseWarm (err : strconv.NumError) : Error
  deriving DecidableEq, Repr

/-- `CelsiusToFahrenheit`: `c*9.0/5.0 + 32`. -/
def CelsiusToFahrenheit (c : Float64) : Float64 :=
  c * Float64.lit 9 / Float64.lit 5 + Float64.lit 32

/-- `CelsiusToKelvin`: `c + 273.15`. -/
def CelsiusToKelvin (c : Float64) : Float64 :=
  c + Float64.lit (27315 / 100)

/-- `FahrenheitToCelsius`: `(f - 32) * 5.0 / 9.0`. -/
def FahrenheitToCelsius (f : Float64) : Float64 :=
  (f - Float64.lit 32) * Float64.lit 5 / Float64.lit 9

/-- `SetColdCoolWarmCelsius`: the returned error (absent on success) and the
value of `subjectiveTempMap` afterwards, given its value `reg` before. -/
def SetColdCoolWarmCelsius (cold cool warm : Float64) (reg : Registry) :
    Option Error × Registry :=
  if ¬ (cold < cool ∧ cool < warm) then (some (Error.order cold cool warm), reg)
  else
    let m0 : List (String × List Float64) := []
    let m1 := mapSet m0 "C" [cold, cool, warm]
    let m2 := mapSet m1 "F"
      [CelsiusToFahrenheit cold, CelsiusToFahrenheit cool, CelsiusToFahrenheit warm]
    let m3 := mapSet m2 "K" [CelsiusToKelvin cold, CelsiusToKelvin cool, CelsiusToKelvin warm]
    (none, some m3)

/-- One element of `CurrentWeatherData.Weather`. -/
structure WeatherEntry where
  Id : Int
  Main : String
  Description : String
  Icon : String
  deriving DecidableEq, Repr

/-- The fields of `CurrentWeatherData` that `SimplifyCurrentWeatherData` reads.
`Weather` is absent for a nil slice. -/
structure CurrentWeatherData where
  Units : String
  DataCollectionTime : String
  CoordLon : Float64
  CoordLat : Float64
  Weather : Option (List WeatherEntry)
  MainTemp : Float64
  MainFeelsLike : Float64
  MainTempMin : Float64
  MainTempMax : Float64
  MainHumidity : Float64
  CloudsAll : Float64
  deriving DecidableEq, Repr

/-- `SimplifiedWeather`, the structure returned by calls to `/api/currentweather`. -/
structure SimplifiedWeather where
  Units : String
  DataCollectionTime : String
  Lat : Float64
  Long : Float64
  CloudinessPercent : Float64
  HumidityPercent : Float64
  Temp : Float64
  TempHigh : Float64
  TempLow : Float64
  TempFeelsLike : Float64
  ExpectedWeather : String
  WeatherDescription : String
  SubjectiveTemp : String
  Summary : String
  deriving DecidableEq, Repr

/-- A run-time panic of the Go program. -/
inductive Panic where
  /-- "index out of range": a slice indexed at or beyond its length. -/
  | indexOutOfRange (index length : Nat) : Panic
  deriving DecidableEq, Repr

/-- The `switch data.Units` of `SimplifyCurrentWeatherData`; without a matching
case `simplified.Units` keeps its zero value, the empty string. -/
def unitsTag (units : String) : String :=
  if units = "standard" then "K"
  else if units = "metric" then "C"
  else if units = "imperial" then "F"
  else ""

/-- The `if`/`else if` chain of `SimplifyCurrentWeatherData` that sets
`SubjectiveTemp`. -/
def subjectiveTemp (temp cold cool warm : Float64) : String :=
  if temp ≤ cold then "cold"
  else if temp ≤ cool then "cool"
  else if temp ≤ warm then "warm"
  else "hot"

/-- The `fmt.Sprintf` call that builds `Summary`. -/
def summaryText (L : Lib) (s : SimplifiedWeather) : String :=
  "The weather will be " ++ s.SubjectiveTemp ++ ".  Expect " ++ s.ExpectedWeather ++
  " with a high of " ++ L.formatFloat s.TempHigh ++ " 째" ++ s.Units ++
  ", a low of " ++ L.formatFloat s.TempLow ++ " 째" ++ s.Units ++ ", " ++
  "and an average temperature of " ++ L.formatFloat s.Temp ++ " 째" ++ s.Units ++
  ".  It'll fell like " ++ L.formatFloat s.TempFeelsLike ++ " 째" ++ s.Units ++
  " with a humidity of " ++ L.formatFloat s.HumidityPercent ++
  "% and a cloud cover of " ++ L.formatFloat s.CloudinessPercent ++ "%."

/-- `SimplifyCurrentWeatherData`, reading the package variable as `reg`. The
result is a panic, nil (`none`), or the pointer to a new record. -/
def SimplifyCurrentWeatherData (L : Lib) (reg : Registry) (data : Option CurrentWeatherData) :
    Except Panic (Option SimplifiedWeather) :=
  match data with
  | none => Except.ok none
  | some d =>
    match d.Weather with
    | none => Except.ok none
    | some [] => Except.ok none
    | some (w :: ws) =>
      let weather := w :: ws
      let mainDesc := weather.map (fun e => e.Main)
      let mainSubDesc := weather.map (fun e => e.Description)
      let units := unitsTag d.Units
      let m := reg.get units
      match m with
      | [] => Except.error (Panic.indexOutOfRange 0 0)
      | [_] => Except.error (Panic.indexOutOfRange 1 1)
      | [_, _] => Except.error (Panic.indexOutOfRange 2 2)
      | cold :: cool :: warm :: _ =>
        let simplified : SimplifiedWeather :=
          { Units := units
            DataCollectionTime := d.DataCollectionTime
            Lat := d.CoordLat
            Long := d.CoordLon
            CloudinessPercent := d.CloudsAll
            HumidityPercent := d.MainHumidity
            Temp := d.MainTemp
            TempHigh := d.MainTempMax
            TempLow := d.MainTempMin
            TempFeelsLike := d.MainFeelsLike
            ExpectedWeather := stringsToLower L (stringsJoin mainDesc ",")
            WeatherDescription := stringsToLower L (stringsJoin mainSubDesc ",")
            SubjectiveTemp := subjectiveTemp d.MainTemp cold cool warm
            Summary := "" }
        Except.ok (some { simplified with Summary := summaryText L simplified })

/-- `ParseColdCoolWarmValues`: the three values and the error (absent on
success); the values are zero whenever there is an error. -/
def ParseColdCoolWarmValues (str : String) : Float64 × Float64 × Float64 × Option Error :=
  let zero := Float64.fin 0
  let parts := stringsSplit str ','
  match parts with
  | [p0, p1, p2] =>
    match strconv.ParseFloat p0 with
    | (_, some err) => (zero, zero, zero, some (Error.parseCold err))
    | (cold, none) =>
      match strconv.ParseFloat p1 with
      | (_, some err) => (zero, zero, zero, some (Error.parseCool err))
      | (cool, none) =>
        match strconv.ParseFloat p2 with
        | (_, some err) => (zero, zero, zero, some (Error.parseWarm err))
        | (warm, none) => (cold, cool, warm, none)
  | _ => (zero, zero, zero, some (Error.count parts.length))

end data

/-! ## package main (`weatherserver.go`) -/

namespace weatherserver

open Go data

/-- The three query parameters read at the head of `getCurrentWeather`;
`queryValues.Get` gives the empty string for a missing parameter. -/
structure Query where
  longitude : String
  latitude : String
  units : String
  deriving DecidableEq, Repr

/-- Error values built at the head of `getCurrentWeather`. -/
inductive RequestError where
  /-- "Invalid units value: %v" -/
  | invalidUnits (units : String) : RequestError
  /-- "missing longitude" -/
  | missingLongitude : RequestError
  /-- "missing latitude" -/
  | missingLatitude : RequestError
  /-- "Invalid longitude value: %v" -/
  | invalidLongitude (longitudeStr : String) : RequestError
  /-- "Invalid latitude value: %v" -/
  | invalidLatitude (latitudeStr : String) : RequestError
  deriving DecidableEq, Repr

/-- `http.StatusBadRequest`. -/
def StatusBadRequest : Nat := 400

/-- How the head of `getCurrentWeather` ends: it returns an error with a status
code, or it reaches `http.Get` with the request built from `latitude`,
`longitude` and `units`. -/
inductive Checked where
  | rejected (err : RequestError) (statusCode : Nat) : Checked
  | upstream (latitude longitude : Float64) (units : String) : Checked
  deriving DecidableEq, Repr

/-- `getCurrentWeather` up to the call of `http.Get`. -/
def getCurrentWeather (q : Query) : Checked :=
  let longitudeStr := q.longitude
  let latitudeStr := q.latitude
  let unitsChecked : Option String :=
    if q.units = "metric" then some q.units
    else if q.units = "imperial" then some q.units
    else if q.units = "standard" then some q.units
    else if q.units = "" then some "metric"
    else none
  match unitsChecked with
  | none => Checked.rejected (RequestError.invalidUnits q.units) StatusBadRequest
  | some units =>
    if longitudeStr = "" then Checked.rejected RequestError.missingLongitude StatusBadRequest
    else if latitudeStr = "" then Checked.rejected RequestError.missingLatitude StatusBadRequest
    else
      match strconv.ParseFloat longitudeStr with
      | (longitude, err) =>
        if err ≠ none ∨ longitude < Float64.lit (-180) ∨ Float64.lit 180 < longitude then
          Checked.rejected (RequestError.invalidLongitude longitudeStr) StatusBadRequest
        else
          match strconv.ParseFloat latitudeStr with
          | (latitude, err) =>
            if err ≠ none ∨ latitude < Float64.lit (-90) ∨ Float64.lit 90 < latitude then
              Checked.rejected (RequestError.invalidLatitude latitudeStr) StatusBadRequest
            else Checked.upstream latitude longitude units

/-- Why `main` stops before serving: the flag `coldCoolWarmF` is empty ("No
values specified for cold, cool, warm"), or one of the two calls failed. -/
inductive StartupError where
  | noValues : StartupError
  | config (err : data.Error) : StartupError
  deriving DecidableEq, Repr

/-- The lines of `main` that set the thresholds from the flag `coldCoolWarmF`:
`ParseColdCoolWarmValues`, each value through `FahrenheitToCelsius`, then
`SetColdCoolWarmCelsius`; an error ends the process (`os.Exit(1)`). The result
is the registry with which the server goes on. -/
def mainThresholds (coldCoolWarmF : String) (reg : Registry) : Except StartupError Registry :=
  if coldCoolWarmF = "" then Except.error StartupError.noValues
  else
    match ParseColdCoolWarmValues coldCoolWarmF with
    | (_, _, _, some err) => Except.error (StartupError.config err)
    | (cold, cool, warm, none) =>
      match SetColdCoolWarmCelsius (FahrenheitToCelsius cold) (FahrenheitToCelsius cool)
          (FahrenheitToCelsius warm) reg with
      | (some err, _) => Except.error (StartupError.config err)
      | (none, reg1) => Except.ok reg1

end weatherserver

/-! ## Values used in the statements below -/

namespace data

open Go

/-- The three triples stored by a successful `SetColdCoolWarmCelsius`. -/
def builtMap (cold cool warm : Float64) : List (String × List Float64) :=
  [("K", [CelsiusToKelvin cold, CelsiusToKelvin cool, CelsiusToKelvin warm]),
   ("F", [CelsiusToFahrenheit cold, CelsiusToFahrenheit cool, CelsiusToFahrenheit warm]),
   ("C", [cold, cool, warm])]

/-- An observation with one condition entry, for the given units and temperature. -/
def exampleObservation (units : String) (temp : Float64) : CurrentWeatherData :=
  { Units := units
    DataCollectionTime := "2023-06-01 12:00:00 +0000 UTC"
    CoordLon := Float64.fin 0
    CoordLat := Float64.fin 0
    Weather := some [⟨802, "Clouds", "scattered clouds", "03d"⟩]
    MainTemp := temp
    MainFeelsLike := temp
    MainTempMin := temp
    MainTempMax := temp
    MainHumidity := Float64.fin 50
    CloudsAll := Float64.fin 40 }

/-- An observation with two condition entries, the first of which has a comma
in its main condition. -/
def commaObservation : CurrentWeatherData :=
  { exampleObservation "metric" (Float64.fin 20) with
    Weather := some [⟨500, "Rain,Snow", "light rain", "10d"⟩,
                     ⟨802, "Clouds", "scattered clouds", "03d"⟩] }

/-- An observation with three condition entries, the first and the last equal. -/
def repeatedObservation : CurrentWeatherData :=
  { exampleObservation "metric" (Float64.fin 20) with
    Weather := some [⟨802, "Clouds", "scattered clouds", "03d"⟩,
                     ⟨500, "Rain", "light rain", "10d"⟩,
                     ⟨802, "Clouds", "scattered clouds", "03d"⟩] }

end data

/-! ## package logging (`logging/logutil.go`) -/

namespace logging

/-- Error values returned by the package: the two messages of
`validateLogFilePrefix`, the error of `os.Stat`, and "%v is not a directory". -/
inductive Error where
  /-- "Empty log file prefix" -/
  | emptyPrefix : Error
  /-- "File prefixes must only contain a-z, A-Z, or 0-9 characters" -/
  | invalidPrefix : Error
  /-- The error returned by `os.Stat`. -/
  | stat (err : String) : Error
  /-- "%v is not a directory" -/
  | notDirectory (logFileDir : String) : Error
  deriving DecidableEq, Repr

/-- The `for _, ch := range prefix` loop of `validateLogFilePrefix`, over the
runes of the string. -/
def validateLoop : List Char → Option Error
  | [] => none
  | ch :: rest =>
    if ¬ (('a' ≤ ch ∧ ch ≤ 'z') ∨ ('A' ≤ ch ∧ ch ≤ 'Z') ∨ ('0' ≤ ch ∧ ch ≤ '9')) then
      some Error.invalidPrefix
    else validateLoop rest

/-- `validateLogFilePrefix`: the error, absent when the prefix is accepted. -/
def validateLogFilePrefix (pfx : String) : Option Error :=
  if pfx = "" then some Error.emptyPrefix
  else validateLoop pfx.data

/-- The value `logrus.SetFormatter` receives in `Initialize`. -/
structure Formatter where
  TimestampFormat : String
  LogFormat : String
  deriving DecidableEq, Repr

/-- The constant `LoggerDateFormat`. -/
def LoggerDateFormat : String := "2006-01-02 15:04:05.000"

/-- Where logrus writes, as set by `logrus.SetOutput`: its default while
`SetOutput` has not been called, the file, or standard output and the file. -/
inductive Output where
  | default : Output
  | file (fd : Nat) : Output
  | stdoutAndFile (fd : Nat) : Output
  deriving DecidableEq, Repr

/-- The package variables, with the formatter and the output that the package
sets in logrus. `logFile` is absent for the zero `os.File` and otherwise names
the file that `os.OpenFile` returned. -/
structure Logger where
  LOG_TO_STDOUT_ALSO : Bool
  log_file_prefix : String
  log_file_dir : String
  previousLogFileName : String
  logFile : Option Nat
  formatter : Option Formatter
  output : Output
  deriving DecidableEq, Repr

/-- The package variables when the program starts. -/
def Logger.initial : Logger :=
  { LOG_TO_STDOUT_ALSO := true
    log_file_prefix := ""
    log_file_dir := ""
    previousLogFileName := ""
    logFile := none
    formatter := none
    output := Output.default }

/-- A calendar date, as `time.Now()` gives it. -/
structure Date where
  year : Nat
  month : Nat
  day : Nat
  deriving DecidableEq, Repr

/-- The outside world during one call: the date of `time.Now()`,
`os.PathSeparator`, what `os.Stat` answers for a path (an error, or whether the
path is a directory), and what `os.OpenFile(path, O_WRONLY|O_APPEND|O_CREATE,
0644)` answers (an error, or a new file). -/
structure Env where
  now : Date
  pathSeparator : Char
  stat : String → Except String Bool
  openFile : String → Except String Nat

/-- Decimal digits of `n`, padded with zeros on the left to `width` digits. -/
def zeroPad (width n : Nat) : String :=
  String.mk (List.replicate (width - (Nat.repr n).length) '0') ++ Nat.repr n

/-- `t.Format("2006.01.02")`: year, month and day as `YYYY.MM.DD`. -/
def formatDate (d : Date) : String :=
  zeroPad 4 d.year ++ "." ++ zeroPad 2 d.month ++ "." ++ zeroPad 2 d.day

/-- `Initialize`: the returned error (absent on success) and the package
variables afterwards. -/
def Initialize (env : Env) (logFilePrefix logFileDir : String) (st : Logger) :
    Option Error × Logger :=
  match validateLogFilePrefix logFilePrefix with
  | some err => (some err, st)
  | none =>
    let st1 := { st with log_file_prefix := logFilePrefix }
    match env.stat logFileDir with
    | Except.error err => (some (Error.stat err), st1)
    | Except.ok isDir =>
      if ¬ isDir then (some (Error.notDirectory logFileDir), st1)
      else
        (none, { st1 with
          log_file_dir := logFileDir
          formatter := some ⟨LoggerDateFormat, "[%lvl%] %time% %msg%\n"⟩ })

/-- `getCurrentLogFileName`: prefix, ".", the current date and ".log". -/
def getCurrentLogFileName (st : Logger) (now : Date) : String :=
  st.log_file_prefix ++ "." ++ formatDate now ++ ".log"

/-- What a call of `logToFile` does to the outside world, in order. What logrus
does with a line (writing it to its output, and ending the process after
`Fatalln` and `Panicln`) is not part of the model. -/
inductive Effect where
  /-- `logFile.Close()` on the current value of `logFile`; the result is ignored. -/
  | close (logFile : Option Nat) : Effect
  /-- `os.OpenFile(fullPath, ...)`. -/
  | openFile (fullPath : String) : Effect
  /-- `fmt.Printf("Error opening log file (%v): %v", fullPath, err)`. -/
  | printOpenError (fullPath : String) (err : String) : Effect
  /-- The logrus call for the level, with the log line. -/
  | logrus (level : Nat) (logLine : String) : Effect
  deriving DecidableEq, Repr

/-- The logrus levels, `PanicLevel` = 0 up to `TraceLevel` = 6. -/
def PanicLevel : Nat := 0

/-- `logrus.FatalLevel`. -/
def FatalLevel : Nat := 1

/-- `logrus.ErrorLevel`. -/
def ErrorLevel : Nat := 2

/-- `logrus.WarnLevel`. -/
def WarnLevel : Nat := 3

/-- `logrus.InfoLevel`. -/
def InfoLevel : Nat := 4

/-- `logrus.DebugLevel`. -/
def DebugLevel : Nat := 5

/-- `logrus.TraceLevel`. -/
def TraceLevel : Nat := 6

/-- The `switch level` of `logToFile`: the level of the logrus function that is
called; a level without a case is logged with `Infoln`. -/
def dispatchLevel (level : Nat) : Nat :=
  if level ≤ TraceLevel then level else InfoLevel

/-- `logToFile`, run under the mutex `logFileMutex`: the package variables
afterwards and what the call did, given the package variables before. -/
def logToFile (env : Env) (st : Logger) (requestId : Nat) (message : String) (level : Nat) :
    Logger × List Effect :=
  if st.log_file_dir = "" then (st, [])
  else
    let currentLogFile := getCurrentLogFileName st env.now
    let logLine := "[requestNum=" ++ Nat.repr requestId ++ "] " ++ message
    if currentLogFile ≠ st.previousLogFileName then
      let fullPath := st.log_file_dir ++ String.singleton env.pathSeparator ++ currentLogFile
      match env.openFile fullPath with
      | Except.ok f =>
        ({ st with
            logFile := some f
            previousLogFileName := currentLogFile
            output := if st.LOG_TO_STDOUT_ALSO then Output.stdoutAndFile f else Output.file f },
          [Effect.close st.logFile, Effect.openFile fullPath,
           Effect.logrus (dispatchLevel level) logLine])
      | Except.error err =>
        (st, [Effect.close st.logFile, Effect.openFile fullPath,
              Effect.printOpenError fullPath err])
    else (st, [Effect.logrus (dispatchLevel level) logLine])

/-- An outside world in which `os.OpenFile` fails. -/
def failingEnv : Env :=
  { now := ⟨2024, 3, 7⟩
    pathSeparator := '/'
    stat := fun _ => Except.ok true
    openFile := fun _ => Except.error "permission denied" }

/-- An outside world in which `os.OpenFile` succeeds with the file 7. -/
def workingEnv : Env :=
  { now := ⟨2024, 3, 7⟩
    pathSeparator := '/'
    stat := fun _ => Except.ok true
    openFile := fun _ => Except.ok 7 }

/-- The package variables after `Initialize("weatherserver", "/var/log")`. -/
def activeLogger : Logger :=
  { Logger.initial with
    log_file_prefix := "weatherserver"
    log_file_dir := "/var/log"
    formatter := some ⟨LoggerDateFormat, "[%lvl%] %time% %msg%\n"⟩ }

end logging

/-! ## Rounding: the exponent and monotonicity -/

namespace Go

theorem bitLen_spec (fuel : Nat) : ∀ n : Nat, n ≤ fuel → 0 < n →
    2 ^ (bitLen fuel n - 1) ≤ n ∧ n < 2 ^ bitLen fuel n ∧ 0 < bitLen fuel n := by
  induction fuel with
  | zero => intro n h0 hpos; omega
  | succ f ih =>
    intro n hn hpos
    have hne : n ≠ 0 := by omega
    simp only [bitLen, hne, if_false]
    by_cases h1 : n / 2 = 0
    · have hn1 : n = 1 := by omega
      subst hn1
      cases f <;> simp [bitLen]
    · have hlt : n / 2 ≤ f := by omega
      obtain ⟨hlo, hhi, hp⟩ := ih (n / 2) hlt (by omega)
      refine ⟨?_, ?_, by omega⟩
      · have e1 : bitLen f (n / 2) + 1 - 1 = (bitLen f (n / 2) - 1) + 1 := by omega
        rw [e1, pow_succ]
        omega
      · rw [pow_succ]
        omega

theorem ilog2_spec {a : ℚ} (ha : 0 < a) :
    (2 : ℚ) ^ ilog2 a ≤ a ∧ a < (2 : ℚ) ^ (ilog2 a + 1) := by
  have hnum : 0 < a.num := Rat.num_pos.mpr ha
  have hden : 0 < a.den := a.den_pos
  set n := a.num.natAbs with hn
  have hnpos : 0 < n := by omega
  obtain ⟨nlo, nhi, np⟩ := bitLen_spec n n le_rfl hnpos
  obtain ⟨dlo, dhi, dp⟩ := bitLen_spec a.den a.den le_rfl hden
  have hnq : (a.num : ℚ) = (n : ℚ) := by
    have : (a.num : ℤ) = (n : ℤ) := by omega
    exact_mod_cast congrArg (fun z : ℤ => (z : ℚ)) this
  have haeq : a = (n : ℚ) / (a.den : ℚ) := by
    rw [← hnq]; exact (Rat.num_div_den a).symm
  have hdq : (0 : ℚ) < (a.den : ℚ) := by exact_mod_cast hden
  set bn := bitLen n n with hbn
  set bd := bitLen a.den a.den with hbd
  have nloq : (2 : ℚ) ^ ((bn : ℤ) - 1) ≤ (n : ℚ) := by
    have : ((bn : ℤ) - 1) = ((bn - 1 : ℕ) : ℤ) := by omega
    rw [this, zpow_natCast]; exact_mod_cast nlo
  have nhiq : (n : ℚ) < (2 : ℚ) ^ (bn : ℤ) := by
    rw [zpow_natCast]; exact_mod_cast nhi
  have dloq : (2 : ℚ) ^ ((bd : ℤ) - 1) ≤ (a.den : ℚ) := by
    have : ((bd : ℤ) - 1) = ((bd - 1 : ℕ) : ℤ) := by omega
    rw [this, zpow_natCast]; exact_mod_cast dlo
  have dhiq : (a.den : ℚ) < (2 : ℚ) ^ (bd : ℤ) := by
    rw [zpow_natCast]; exact_mod_cast dhi
  have h2 : (0 : ℚ) < 2 := by norm_num
  -- a < 2 ^ (bn - bd + 1)
  have hup : a < (2 : ℚ) ^ ((bn : ℤ) - bd + 1) := by
    rw [haeq, div_lt_iff₀ hdq]
    calc (n : ℚ) < (2 : ℚ) ^ (bn : ℤ) := nhiq
      _ = (2 : ℚ) ^ ((bn : ℤ) - bd + 1) * (2 : ℚ) ^ ((bd : ℤ) - 1) := by
          rw [← zpow_add₀ (by norm_num : (2 : ℚ) ≠ 0)]; congr 1; ring
      _ ≤ (2 : ℚ) ^ ((bn : ℤ) - bd + 1) * (a.den : ℚ) :=
          mul_le_mul_of_nonneg_left dloq (le_of_lt (zpow_pos h2 _))
  -- 2 ^ (bn - bd - 1) ≤ a
  have hlow : (2 : ℚ) ^ ((bn : ℤ) - bd - 1) ≤ a := by
    rw [haeq, le_div_iff₀ hdq]
    calc (2 : ℚ) ^ ((bn : ℤ) - bd - 1) * (a.den : ℚ)
        ≤ (2 : ℚ) ^ ((bn : ℤ) - bd - 1) * (2 : ℚ) ^ (bd : ℤ) :=
          mul_le_mul_of_nonneg_left (le_of_lt dhiq) (le_of_lt (zpow_pos h2 _))
      _ = (2 : ℚ) ^ ((bn : ℤ) - 1) := by
          rw [← zpow_add₀ (by norm_num : (2 : ℚ) ≠ 0)]; congr 1; ring
      _ ≤ (n : ℚ) := nloq
  unfold ilog2
  simp only [← hn, ← hbn, ← hbd]
  split_ifs with hc
  · refine ⟨hlow, ?_⟩
    have : ((bn : ℤ) - bd - 1 + 1) = (bn : ℤ) - bd := by ring
    rw [this]; exact hc
  · exact ⟨not_lt.mp hc, hup⟩

theorem rne_bounds (s : ℚ) : ⌊s⌋ ≤ rne s ∧ rne s ≤ ⌊s⌋ + 1 := by
  unfold rne
  simp only
  split_ifs <;> constructor <;> omega

theorem rne_intCast (n : ℤ) : rne (n : ℚ) = n := by
  unfold rne
  simp

theorem rne_mono {s t : ℚ} (h : s ≤ t) : rne s ≤ rne t := by
  have hfl : ⌊s⌋ ≤ ⌊t⌋ := Int.floor_mono h
  rcases lt_or_eq_of_le hfl with hlt | heq
  · have h1 := (rne_bounds s).2
    have h2 := (rne_bounds t).1
    omega
  · unfold rne
    simp only
    rw [heq]
    have hst : s - (⌊t⌋ : ℚ) ≤ t - (⌊t⌋ : ℚ) := by linarith
    split_ifs <;> first | omega | (exfalso; linarith)

/-- Rounding to the grid of spacing `2^k` cannot cross a grid point. -/
theorem rne_le_of_le {q : ℚ} {k b : ℤ} (h : q ≤ (b : ℚ) * (2 : ℚ) ^ k) :
    ((rne (q / (2 : ℚ) ^ k) : ℤ) : ℚ) * (2 : ℚ) ^ k ≤ (b : ℚ) * (2 : ℚ) ^ k := by
  have hp : (0 : ℚ) < (2 : ℚ) ^ k := zpow_pos (by norm_num) k
  have h1 : q / (2 : ℚ) ^ k ≤ (b : ℚ) := by rw [div_le_iff₀ hp]; exact h
  have h2 : rne (q / (2 : ℚ) ^ k) ≤ b := by
    have := rne_mono h1
    rwa [rne_intCast] at this
  have h3 : ((rne (q / (2 : ℚ) ^ k) : ℤ) : ℚ) ≤ (b : ℚ) := by exact_mod_cast h2
  exact mul_le_mul_of_nonneg_right h3 (le_of_lt hp)

theorem le_rne_of_le {q : ℚ} {k b : ℤ} (h : (b : ℚ) * (2 : ℚ) ^ k ≤ q) :
    (b : ℚ) * (2 : ℚ) ^ k ≤ ((rne (q / (2 : ℚ) ^ k) : ℤ) : ℚ) * (2 : ℚ) ^ k := by
  have hp : (0 : ℚ) < (2 : ℚ) ^ k := zpow_pos (by norm_num) k
  have h1 : (b : ℚ) ≤ q / (2 : ℚ) ^ k := by rw [le_div_iff₀ hp]; exact h
  have h2 : b ≤ rne (q / (2 : ℚ) ^ k) := by
    have := rne_mono h1
    rwa [rne_intCast] at this
  have h3 : (b : ℚ) ≤ ((rne (q / (2 : ℚ) ^ k) : ℤ) : ℚ) := by exact_mod_cast h2
  exact mul_le_mul_of_nonneg_right h3 (le_of_lt hp)

/-- The binade of `q`: with `E = ulpExp q + 52`, the magnitude of `q` is below
`2^(E+1)`, and at least `2^E` unless `q` is subnormal. -/
theorem ulpExp_spec (q : ℚ) :
    -1074 ≤ ulpExp q ∧ |q| < (2 : ℚ) ^ (ulpExp q + 53) ∧
      (-1074 < ulpExp q → (2 : ℚ) ^ (ulpExp q + 52) ≤ |q|) := by
  unfold ulpExp
  split_ifs with h0
  · subst h0
    refine ⟨le_rfl, ?_, fun h => absurd h (lt_irrefl _)⟩
    simp only [abs_zero]
    exact zpow_pos (by norm_num) _
  · have hpos : 0 < |q| := abs_pos.mpr h0
    obtain ⟨hlo, hhi⟩ := ilog2_spec hpos
    refine ⟨?_, ?_, ?_⟩
    · have := le_max_right (ilog2 |q|) (-1022)
      omega
    · have hle : ilog2 |q| + 1 ≤ max (ilog2 |q|) (-1022) - 52 + 53 := by
        have := le_max_left (ilog2 |q|) (-1022)
        omega
      exact lt_of_lt_of_le hhi (zpow_le_zpow_right₀ (by norm_num) hle)
    · intro hk
      have hmax : max (ilog2 |q|) (-1022) = ilog2 |q| := by
        rcases max_cases (ilog2 |q|) (-1022) with ⟨h, _⟩ | ⟨h, _⟩
        · exact h
        · omega
      rw [hmax]
      have : ilog2 |q| - 52 + 52 = ilog2 |q| := by ring
      rw [this]; exact hlo

theorem two_zpow_grid (k : ℤ) (j : ℕ) :
    (2 : ℚ) ^ (k + j) = ((2 ^ j : ℤ) : ℚ) * (2 : ℚ) ^ k := by
  rw [zpow_add₀ (by norm_num : (2 : ℚ) ≠ 0), zpow_natCast, mul_comm]
  push_cast
  ring

theorem roundFin_abs_le (q : ℚ) :
    roundFin q ≤ (2 : ℚ) ^ (ulpExp q + 53) ∧ -(2 : ℚ) ^ (ulpExp q + 53) ≤ roundFin q := by
  obtain ⟨_, hhi, _⟩ := ulpExp_spec q
  have hg := two_zpow_grid (ulpExp q) 53
  have hg2 : (2 : ℚ) ^ (ulpExp q + 53) = (2 : ℚ) ^ (ulpExp q + (53 : ℕ)) := by norm_num
  have hq := abs_lt.mp hhi
  constructor
  · unfold roundFin
    rw [hg2, hg]
    apply rne_le_of_le
    rw [← hg, ← hg2]; exact le_of_lt hq.2
  · unfold roundFin
    have : -(2 : ℚ) ^ (ulpExp q + 53) = ((-(2 ^ 53) : ℤ) : ℚ) * (2 : ℚ) ^ ulpExp q := by
      rw [hg2, hg]; push_cast; ring
    rw [this]
    apply le_rne_of_le
    rw [← this]; exact le_of_lt hq.1

theorem roundFin_ge_of_normal_pos {q : ℚ} (hk : -1074 < ulpExp q) (hq : 0 < q) :
    (2 : ℚ) ^ (ulpExp q + 52) ≤ roundFin q := by
  obtain ⟨_, _, hlo⟩ := ulpExp_spec q
  have hlo := hlo hk
  rw [abs_of_pos hq] at hlo
  have hg := two_zpow_grid (ulpExp q) 52
  have hg2 : (2 : ℚ) ^ (ulpExp q + 52) = (2 : ℚ) ^ (ulpExp q + (52 : ℕ)) := by norm_num
  unfold roundFin
  rw [hg2, hg]
  apply le_rne_of_le
  rw [← hg, ← hg2]; exact hlo

theorem roundFin_le_of_normal_neg {q : ℚ} (hk : -1074 < ulpExp q) (hq : q < 0) :
    roundFin q ≤ -(2 : ℚ) ^ (ulpExp q + 52) := by
  obtain ⟨_, _, hlo⟩ := ulpExp_spec q
  have hlo := hlo hk
  rw [abs_of_neg hq] at hlo
  have hg := two_zpow_grid (ulpExp q) 52
  have hg2 : (2 : ℚ) ^ (ulpExp q + 52) = (2 : ℚ) ^ (ulpExp q + (52 : ℕ)) := by norm_num
  have : -(2 : ℚ) ^ (ulpExp q + 52) = ((-(2 ^ 52) : ℤ) : ℚ) * (2 : ℚ) ^ ulpExp q := by
    rw [hg2, hg]; push_cast; ring
  unfold roundFin
  rw [this]
  apply rne_le_of_le
  rw [← this]; linarith

/-- Rounding to nearest is monotone. -/
theorem roundFin_mono {q1 q2 : ℚ} (h : q1 ≤ q2) : roundFin q1 ≤ roundFin q2 := by
  obtain ⟨hk1, hhi1, hlo1⟩ := ulpExp_spec q1
  obtain ⟨hk2, hhi2, hlo2⟩ := ulpExp_spec q2
  rcases lt_trichotomy (ulpExp q1) (ulpExp q2) with hlt | heq | hgt
  · -- q2 lies in a higher binade, so it is positive
    have hk : -1074 < ulpExp q2 := by omega
    have hlo := hlo2 hk
    have hpow : (2 : ℚ) ^ (ulpExp q1 + 53) ≤ (2 : ℚ) ^ (ulpExp q2 + 52) :=
      zpow_le_zpow_right₀ (by norm_num) (by omega)
    have habs : |q1| < |q2| := lt_of_lt_of_le hhi1 (le_trans hpow hlo)
    have hq2 : 0 < q2 := by
      by_contra hn
      have hn : q2 ≤ 0 := not_lt.mp hn
      have h1 : q1 ≤ 0 := le_trans h hn
      rw [abs_of_nonpos h1, abs_of_nonpos hn] at habs
      linarith
    exact le_trans (roundFin_abs_le q1).1 (le_trans hpow (roundFin_ge_of_normal_pos hk hq2))
  · unfold roundFin
    rw [heq]
    have hp : (0 : ℚ) < (2 : ℚ) ^ ulpExp q2 := zpow_pos (by norm_num) _
    have h1 : q1 / (2 : ℚ) ^ ulpExp q2 ≤ q2 / (2 : ℚ) ^ ulpExp q2 :=
      div_le_div_of_nonneg_right h (le_of_lt hp)
    have h2 : ((rne (q1 / (2 : ℚ) ^ ulpExp q2) : ℤ) : ℚ) ≤ ((rne (q2 / (2 : ℚ) ^ ulpExp q2) : ℤ) : ℚ) := by
      exact_mod_cast rne_mono h1
    exact mul_le_mul_of_nonneg_right h2 (le_of_lt hp)
  · -- q1 lies in a higher binade, so it is negative
    have hk : -1074 < ulpExp q1 := by omega
    have hlo := hlo1 hk
    have hpow : (2 : ℚ) ^ (ulpExp q2 + 53) ≤ (2 : ℚ) ^ (ulpExp q1 + 52) :=
      zpow_le_zpow_right₀ (by norm_num) (by omega)
    have habs : |q2| < |q1| := lt_of_lt_of_le hhi2 (le_trans hpow hlo)
    have hq1 : q1 < 0 := by
      by_contra hn
      have hn : 0 ≤ q1 := not_lt.mp hn
      have h2 : 0 ≤ q2 := le_trans hn h
      rw [abs_of_nonneg hn, abs_of_nonneg h2] at habs
      linarith
    have ha := roundFin_le_of_normal_neg hk hq1
    have hb := (roundFin_abs_le q2).2
    linarith

/-! ## The order of float64 and monotone operations -/

theorem f64_lt_def (x y : Float64) : (x < y) = Float64.lt x y := rfl

theorem f64_le_def (x y : Float64) : (x ≤ y) = Float64.le x y := rfl

theorem f64_add_def (x y : Float64) : x + y = Float64.add x y := rfl

theorem f64_sub_def (x y : Float64) : x - y = Float64.sub x y := rfl

theorem f64_mul_def (x y : Float64) : x * y = Float64.mul x y := rfl

theorem f64_div_def (x y : Float64) : x / y = Float64.div x y := rfl

theorem f64_lt_irrefl (x : Float64) : ¬ x < x := by
  cases x <;> simp [f64_lt_def, Float64.lt]

theorem f64_not_le_of_lt {x y : Float64} (h : x < y) : ¬ y ≤ x := by
  cases x <;> cases y <;> simp_all [f64_lt_def, Float64.lt, f64_le_def, Float64.le]

theorem f64_not_lt_of_le {x y : Float64} (h : x ≤ y) : ¬ y < x := by
  cases x <;> cases y <;> simp_all [f64_lt_def, Float64.lt, f64_le_def, Float64.le]

theorem f64_le_of_lt {x y : Float64} (h : x < y) : x ≤ y := by
  cases x <;> cases y <;> simp_all [f64_lt_def, Float64.lt, f64_le_def, Float64.le]
  exact le_of_lt h

theorem f64_lt_trans {x y z : Float64} (h1 : x < y) (h2 : y < z) : x < z := by
  cases x <;> cases y <;> cases z <;> simp_all [f64_lt_def, Float64.lt]
  exact lt_trans h1 h2

theorem f64_le_trans {x y z : Float64} (h1 : x ≤ y) (h2 : y ≤ z) : x ≤ z := by
  cases x <;> cases y <;> cases z <;> simp_all [f64_le_def, Float64.le]
  exact le_trans h1 h2

theorem f64_lt_of_le_of_lt {x y z : Float64} (h1 : x ≤ y) (h2 : y < z) : x < z := by
  cases x <;> cases y <;> cases z <;> simp_all [f64_lt_def, Float64.lt, f64_le_def, Float64.le]
  exact lt_of_le_of_lt h1 h2

theorem f64_lt_of_lt_of_le {x y z : Float64} (h1 : x < y) (h2 : y ≤ z) : x < z := by
  cases x <;> cases y <;> cases z <;> simp_all [f64_lt_def, Float64.lt, f64_le_def, Float64.le]
  exact lt_of_lt_of_le h1 h2

/-- Away from NaN the order is total. -/
theorem f64_lt_or_le (x y : Float64) (hx : x ≠ Float64.nan) (hy : y ≠ Float64.nan) :
    x < y ∨ y ≤ x := by
  cases x <;> cases y <;> simp_all [f64_lt_def, Float64.lt, f64_le_def, Float64.le]
  exact lt_or_le _ _

theorem f64_ne_nan_of_le {x y : Float64} (h : x ≤ y) : x ≠ Float64.nan ∧ y ≠ Float64.nan := by
  cases x <;> cases y <;> simp_all [f64_le_def, Float64.le]

theorem f64_ne_nan_of_lt {x y : Float64} (h : x < y) : x ≠ Float64.nan ∧ y ≠ Float64.nan := by
  cases x <;> cases y <;> simp_all [f64_lt_def, Float64.lt]

theorem roundQ_ne_nan (q : ℚ) : roundQ q ≠ Float64.nan := by
  unfold roundQ
  simp only
  split_ifs <;> simp

/-- Rounding an exact result is monotone in the order of float64. -/
theorem roundQ_mono {q1 q2 : ℚ} (h : q1 ≤ q2) : roundQ q1 ≤ roundQ q2 := by
  have hm := roundFin_mono h
  have hp : (0 : ℚ) < (2 : ℚ) ^ (1024 : ℤ) := zpow_pos (by norm_num) _
  unfold roundQ
  simp only
  split_ifs <;> simp_all [f64_le_def, Float64.le] <;> linarith

theorem f64_add_fin_mono (c : ℚ) {x y : Float64} (h : x ≤ y) :
    x + Float64.fin c ≤ y + Float64.fin c := by
  cases x <;> cases y <;> simp_all [f64_le_def, Float64.le, f64_add_def, Float64.add]
  · rename_i a
    have := roundQ_ne_nan (a + c)
    cases hr : roundQ (a + c) <;> simp_all [Float64.le]
  · rename_i a
    have := roundQ_ne_nan (a + c)
    cases hr : roundQ (a + c) <;> simp_all [Float64.le]
  · rename_i a b
    have := roundQ_mono (add_le_add_right h c)
    simpa [f64_le_def] using this

theorem f64_mul_fin_mono {c : ℚ} (hc : 0 < c) {x y : Float64} (h : x ≤ y) :
    x * Float64.fin c ≤ y * Float64.fin c := by
  have hc0 : c ≠ 0 := ne_of_gt hc
  cases x <;> cases y <;>
    simp_all [f64_le_def, Float64.le, f64_mul_def, Float64.mul, Float64.infTimes]
  · rename_i a
    have := roundQ_ne_nan (a * c)
    cases hr : roundQ (a * c) <;> simp_all [Float64.le]
  · rename_i a
    have := roundQ_ne_nan (a * c)
    cases hr : roundQ (a * c) <;> simp_all [Float64.le]
  · rename_i a b
    have := roundQ_mono (mul_le_mul_of_nonneg_right h (le_of_lt hc))
    simpa [f64_le_def] using this

theorem f64_div_fin_mono {c : ℚ} (hc : 0 < c) {x y : Float64} (h : x ≤ y) :
    x / Float64.fin c ≤ y / Float64.fin c := by
  have hc0 : c ≠ 0 := ne_of_gt hc
  have hc1 : 0 ≤ c := le_of_lt hc
  cases x <;> cases y <;>
    simp_all [f64_le_def, Float64.le, f64_div_def, Float64.div]
  · rename_i a
    have := roundQ_ne_nan (a / c)
    cases hr : roundQ (a / c) <;> simp_all [Float64.le]
  · rename_i a
    have := roundQ_ne_nan (a / c)
    cases hr : roundQ (a / c) <;> simp_all [Float64.le]
  · rename_i a b
    have := roundQ_mono (div_le_div_of_nonneg_right h hc1)
    simpa [f64_le_def] using this

end Go

/-! ## The conversions and the registry -/

namespace data

open Go

theorem lit_nine : Float64.lit 9 = Float64.fin 9 := by decide!

theorem lit_five : Float64.lit 5 = Float64.fin 5 := by decide!

theorem lit_thirtyTwo : Float64.lit 32 = Float64.fin 32 := by decide!

theorem lit_kelvinOffset :
    Float64.lit (27315 / 100) = Float64.fin (2402652809016115 / 8796093022208) := by decide!

theorem CelsiusToFahrenheit_mono {x y : Float64} (h : x ≤ y) :
    CelsiusToFahrenheit x ≤ CelsiusToFahrenheit y := by
  unfold CelsiusToFahrenheit
  rw [lit_nine, lit_five, lit_thirtyTwo]
  exact f64_add_fin_mono _ (f64_div_fin_mono (by norm_num) (f64_mul_fin_mono (by norm_num) h))

theorem CelsiusToKelvin_mono {x y : Float64} (h : x ≤ y) :
    CelsiusToKelvin x ≤ CelsiusToKelvin y := by
  unfold CelsiusToKelvin
  rw [lit_kelvinOffset]
  exact f64_add_fin_mono _ h

theorem Set_ok {cold cool warm : Float64} (h1 : cold < cool) (h2 : cool < warm)
    (reg : Registry) :
    SetColdCoolWarmCelsius cold cool warm reg = (none, some (builtMap cold cool warm)) := by
  unfold SetColdCoolWarmCelsius
  simp only [h1, h2, and_self, not_true_eq_false, if_false]
  simp [mapSet, builtMap]

theorem Set_err {cold cool warm : Float64} (h : ¬ (cold < cool ∧ cool < warm))
    (reg : Registry) :
    SetColdCoolWarmCelsius cold cool warm reg = (some (Error.order cold cool warm), reg) := by
  unfold SetColdCoolWarmCelsius
  simp only [h, not_false_eq_true, if_true]

theorem Set_ok_iff (cold cool warm : Float64) (reg : Registry) :
    (SetColdCoolWarmCelsius cold cool warm reg).1 = none ↔ (cold < cool ∧ cool < warm) := by
  by_cases h : cold < cool ∧ cool < warm
  · rw [Set_ok h.1 h.2]; simp [h]
  · rw [Set_err h]; simp [h]

theorem built_get_C (a b c : Float64) :
    Registry.get (some (builtMap a b c)) "C" = [a, b, c] := by
  simp [Registry.get, builtMap, List.find?]

theorem built_get_F (a b c : Float64) :
    Registry.get (some (builtMap a b c)) "F" =
      [CelsiusToFahrenheit a, CelsiusToFahrenheit b, CelsiusToFahrenheit c] := by
  simp [Registry.get, builtMap, List.find?]

theorem built_get_K (a b c : Float64) :
    Registry.get (some (builtMap a b c)) "K" =
      [CelsiusToKelvin a, CelsiusToKelvin b, CelsiusToKelvin c] := by
  simp [Registry.get, builtMap, List.find?]

theorem built_get_other (a b c : Float64) (key : String)
    (hC : key ≠ "C") (hF : key ≠ "F") (hK : key ≠ "K") :
    Registry.get (some (builtMap a b c)) key = [] := by
  simp [Registry.get, builtMap, List.find?, Ne.symm hC, Ne.symm hF, Ne.symm hK]

theorem unitsTag_cases (u : String) :
    (u = "standard" ∧ unitsTag u = "K") ∨ (u = "metric" ∧ unitsTag u = "C") ∨
    (u = "imperial" ∧ unitsTag u = "F") ∨
    (u ≠ "standard" ∧ u ≠ "metric" ∧ u ≠ "imperial" ∧ unitsTag u = "") := by
  unfold unitsTag
  by_cases h1 : u = "standard"
  · left; subst h1; simp
  · by_cases h2 : u = "metric"
    · right; left; subst h2; simp
    · by_cases h3 : u = "imperial"
      · right; right; left; subst h3; simp
      · right; right; right; simp [h1, h2, h3]

/-- Every triple held by a built registry is weakly increasing. -/
theorem built_get_ordered {a b c : Float64} (h1 : a < b) (h2 : b < c) (key : String)
    {x y z : Float64} (hg : Registry.get (some (builtMap a b c)) key = [x, y, z]) :
    x ≤ y ∧ y ≤ z := by
  by_cases hC : key = "C"
  · subst hC
    rw [built_get_C] at hg
    simp only [List.cons.injEq, and_true] at hg
    obtain ⟨rfl, rfl, rfl⟩ := hg
    exact ⟨f64_le_of_lt h1, f64_le_of_lt h2⟩
  by_cases hF : key = "F"
  · subst hF
    rw [built_get_F] at hg
    simp only [List.cons.injEq, and_true] at hg
    obtain ⟨rfl, rfl, rfl⟩ := hg
    exact ⟨CelsiusToFahrenheit_mono (f64_le_of_lt h1), CelsiusToFahrenheit_mono (f64_le_of_lt h2)⟩
  by_cases hK : key = "K"
  · subst hK
    rw [built_get_K] at hg
    simp only [List.cons.injEq, and_true] at hg
    obtain ⟨rfl, rfl, rfl⟩ := hg
    exact ⟨CelsiusToKelvin_mono (f64_le_of_lt h1), CelsiusToKelvin_mono (f64_le_of_lt h2)⟩
  rw [built_get_other a b c key hC hF hK] at hg
  simp at hg

/-- The record built by `SimplifyCurrentWeatherData` when the lookup yields at
least three values. -/
theorem Simplify_of_get (L : Lib) (reg : Registry) (d : CurrentWeatherData)
    {w : WeatherEntry} {ws : List WeatherEntry} {cold cool warm : Float64} {rest : List Float64}
    (hw : d.Weather = some (w :: ws))
    (hg : reg.get (unitsTag d.Units) = cold :: cool :: warm :: rest) :
    ∃ r, SimplifyCurrentWeatherData L reg (some d) = Except.ok (some r) ∧
      r.Units = unitsTag d.Units ∧ r.Temp = d.MainTemp ∧
      r.SubjectiveTemp = subjectiveTemp d.MainTemp cold cool warm ∧
      r.ExpectedWeather = stringsToLower L (stringsJoin ((w :: ws).map (fun e => e.Main)) ",") ∧
      r.WeatherDescription =
        stringsToLower L (stringsJoin ((w :: ws).map (fun e => e.Description)) ",") := by
  unfold SimplifyCurrentWeatherData
  simp only [hw, hg]
  exact ⟨_, rfl, rfl, rfl, rfl, rfl, rfl⟩

theorem subjectiveTemp_cold {t cold cool warm : Float64} (h : t ≤ cold) :
    subjectiveTemp t cold cool warm = "cold" := by
  simp [subjectiveTemp, h]

theorem subjectiveTemp_cool {t cold cool warm : Float64} (h1 : ¬ t ≤ cold) (h2 : t ≤ cool) :
    subjectiveTemp t cold cool warm = "cool" := by
  simp [subjectiveTemp, h1, h2]

theorem subjectiveTemp_warm {t cold cool warm : Float64} (h1 : ¬ t ≤ cold) (h2 : ¬ t ≤ cool)
    (h3 : t ≤ warm) : subjectiveTemp t cold cool warm = "warm" := by
  simp [subjectiveTemp, h1, h2, h3]

theorem subjectiveTemp_hot {t cold cool warm : Float64} (h1 : ¬ t ≤ cold) (h2 : ¬ t ≤ cool)
    (h3 : ¬ t ≤ warm) : subjectiveTemp t cold cool warm = "hot" := by
  simp [subjectiveTemp, h1, h2, h3]

/-- The four-way classification against a weakly increasing triple. -/
theorem subjectiveTemp_spec {t cold cool warm : Float64} (h1 : cold ≤ cool) (h2 : cool ≤ warm) :
    (t ≤ cold → subjectiveTemp t cold cool warm = "cold") ∧
    (cold < t → t ≤ cool → subjectiveTemp t cold cool warm = "cool") ∧
    (cool < t → t ≤ warm → subjectiveTemp t cold cool warm = "warm") ∧
    (warm < t → subjectiveTemp t cold cool warm = "hot") := by
  refine ⟨subjectiveTemp_cold, ?_, ?_, ?_⟩
  · intro h3 h4
    exact subjectiveTemp_cool (f64_not_le_of_lt h3) h4
  · intro h3 h4
    exact subjectiveTemp_warm (f64_not_le_of_lt (f64_lt_of_le_of_lt h1 h3))
      (f64_not_le_of_lt h3) h4
  · intro h3
    have hc : cool < t := f64_lt_of_le_of_lt h2 h3
    exact subjectiveTemp_hot (f64_not_le_of_lt (f64_lt_of_le_of_lt h1 hc))
      (f64_not_le_of_lt hc) (f64_not_le_of_lt h3)

/-! ## C1 to C4: classification and the registry -/

theorem f64_le_refl {x : Float64} (h : x ≠ Float64.nan) : x ≤ x := by
  cases x <;> simp_all [f64_le_def, Float64.le]

/-- C1 (counterexample): with Celsius thresholds `0 < 2^-60 < 1` the stored
Fahrenheit triple is `(32, 32, 33.8)`, and an imperial observation whose
temperature equals the stored `cool` value 32 is classified "cold", not "cool".
The same happens through `main` with the flag value "40,40.00000000000001,77":
the first two stored Kelvin thresholds are equal, and an observation with units
"standard" at that temperature is classified "cold". -/
theorem C1_counterexample :
    (SetColdCoolWarmCelsius (Float64.fin 0) (Float64.fin (1 / 2 ^ 60)) (Float64.fin 1) none).1
        = none ∧
    Registry.get
        (SetColdCoolWarmCelsius (Float64.fin 0) (Float64.fin (1 / 2 ^ 60)) (Float64.fin 1) none).2
        (unitsTag "imperial")
      = [Float64.fin 32, Float64.fin 32, Float64.fin (2378463553205043 / 70368744177664)] ∧
    (∀ L : Lib, ∃ r,
      SimplifyCurrentWeatherData L
          (SetColdCoolWarmCelsius (Float64.fin 0) (Float64.fin (1 / 2 ^ 60)) (Float64.fin 1) none).2
          (some (exampleObservation "imperial" (Float64.fin 32)))
        = Except.ok (some r) ∧
      r.SubjectiveTemp = "cold" ∧ r.SubjectiveTemp ≠ "cool") ∧
    (∃ reg,
      weatherserver.mainThresholds "40,40.00000000000001,77" none = Except.ok reg ∧
      Registry.get reg (unitsTag "standard")
        = [Float64.fin (610436638945371 / 2199023255552),
           Float64.fin (610436638945371 / 2199023255552),
           Float64.fin (2622555134571315 / 8796093022208)] ∧
      ∀ L : Lib, ∃ r,
        SimplifyCurrentWeatherData L reg
            (some (exampleObservation "standard" (Float64.fin (610436638945371 / 2199023255552))))
          = Except.ok (some r) ∧
        r.SubjectiveTemp = "cold" ∧ r.SubjectiveTemp ≠ "cool") := by
  have hget : Registry.get
        (SetColdCoolWarmCelsius (Float64.fin 0) (Float64.fin (1 / 2 ^ 60)) (Float64.fin 1) none).2
        (unitsTag "imperial")
      = [Float64.fin 32, Float64.fin 32, Float64.fin (2378463553205043 / 70368744177664)] := by
    decide!
  have hmain : weatherserver.mainThresholds "40,40.00000000000001,77" none
      = Except.ok (some (builtMap
          (FahrenheitToCelsius (Float64.fin 40))
          (FahrenheitToCelsius (Float64.fin (5629499534213121 / 140737488355328)))
          (FahrenheitToCelsius (Float64.fin 77)))) := by
    decide!
  have hgetK : Registry.get (some (builtMap
          (FahrenheitToCelsius (Float64.fin 40))
          (FahrenheitToCelsius (Float64.fin (5629499534213121 / 140737488355328)))
          (FahrenheitToCelsius (Float64.fin 77)))) (unitsTag "standard")
      = [Float64.fin (610436638945371 / 2199023255552),
         Float64.fin (610436638945371 / 2199023255552),
         Float64.fin (2622555134571315 / 8796093022208)] := by
    decide!
  refine ⟨by decide!, hget, fun L => ?_, _, hmain, hgetK, fun L => ?_⟩
  · obtain ⟨r, hr, -, -, hs, -, -⟩ :=
      Simplify_of_get L
        (SetColdCoolWarmCelsius (Float64.fin 0) (Float64.fin (1 / 2 ^ 60)) (Float64.fin 1) none).2
        (exampleObservation "imperial" (Float64.fin 32)) rfl hget
    refine ⟨r, hr, ?_, ?_⟩
    · rw [hs]; decide!
    · rw [hs]; decide!
  · obtain ⟨r, hr, -, -, hs, -, -⟩ :=
      Simplify_of_get L _
        (exampleObservation "standard" (Float64.fin (610436638945371 / 2199023255552))) rfl
        hgetK
    refine ⟨r, hr, ?_, ?_⟩
    · rw [hs]; decide!
    · rw [hs]; decide!

/-- C1 (amended): for every triple stored by a successful
`SetColdCoolWarmCelsius` under the observation's scale, the record's
`SubjectiveTemp` is "cold" if `t <= cold`, "cool" if `cold < t <= cool`, "warm"
if `cool < t <= warm` and "hot" if `t > warm`; `t = cold` gives "cold", and
`t = cool` gives "cool" (`t = warm` gives "warm") when the stored triple has
`cold < cool` (`cool < warm`), which always holds for units "metric". -/
theorem C1_classification (L : Lib) (c0 c1 c2 : Float64) (reg0 : Registry)
    (d : CurrentWeatherData) (w : WeatherEntry) (ws : List WeatherEntry)
    (cold cool warm : Float64)
    (hset : (SetColdCoolWarmCelsius c0 c1 c2 reg0).1 = none)
    (hw : d.Weather = some (w :: ws))
    (hg : Registry.get (SetColdCoolWarmCelsius c0 c1 c2 reg0).2 (unitsTag d.Units)
      = [cold, cool, warm]) :
    ∃ r, SimplifyCurrentWeatherData L (SetColdCoolWarmCelsius c0 c1 c2 reg0).2 (some d)
        = Except.ok (some r) ∧
      (d.MainTemp ≤ cold → r.SubjectiveTemp = "cold") ∧
      (cold < d.MainTemp → d.MainTemp ≤ cool → r.SubjectiveTemp = "cool") ∧
      (cool < d.MainTemp → d.MainTemp ≤ warm → r.SubjectiveTemp = "warm") ∧
      (warm < d.MainTemp → r.SubjectiveTemp = "hot") ∧
      (d.MainTemp = cold → r.SubjectiveTemp = "cold") ∧
      (d.MainTemp = cool → cold < cool → r.SubjectiveTemp = "cool") ∧
      (d.MainTemp = warm → cool < warm → r.SubjectiveTemp = "warm") ∧
      (d.Units = "metric" → cold < cool ∧ cool < warm) := by
  have hlt := (Set_ok_iff c0 c1 c2 reg0).mp hset
  have hreg := Set_ok hlt.1 hlt.2 reg0
  rw [hreg] at hg ⊢
  simp only at hg ⊢
  obtain ⟨h1, h2⟩ := built_get_ordered hlt.1 hlt.2 _ hg
  obtain ⟨r, hr, -, -, hs, -, -⟩ := Simplify_of_get L (some (builtMap c0 c1 c2)) d hw hg
  obtain ⟨s1, s2, s3, s4⟩ := @subjectiveTemp_spec d.MainTemp cold cool warm h1 h2
  refine ⟨r, hr, ?_, ?_, ?_, ?_, ?_, ?_, ?_, ?_⟩
  · intro h; rw [hs]; exact s1 h
  · intro h h'; rw [hs]; exact s2 h h'
  · intro h h'; rw [hs]; exact s3 h h'
  · intro h; rw [hs]; exact s4 h
  · intro h; rw [hs]
    exact s1 (by rw [h]; exact f64_le_refl (f64_ne_nan_of_le h1).1)
  · intro h hlt'; rw [hs]
    exact s2 (by rw [h]; exact hlt') (by rw [h]; exact f64_le_refl (f64_ne_nan_of_le h1).2)
  · intro h hlt'; rw [hs]
    exact s3 (by rw [h]; exact hlt') (by rw [h]; exact f64_le_refl (f64_ne_nan_of_le h2).2)
  · intro hu
    rw [hu] at hg
    have : unitsTag "metric" = "C" := by decide
    rw [this, built_get_C] at hg
    simp only [List.cons.injEq, and_true] at hg
    obtain ⟨rfl, rfl, rfl⟩ := hg
    exact hlt

/-- C1 (witness): Celsius thresholds 5, 15, 25 and a metric observation at 20. -/
theorem C1_classification_witness :
    ∃ r, SimplifyCurrentWeatherData ⟨fun c => c, fun _ => ""⟩
        (SetColdCoolWarmCelsius (Float64.fin 5) (Float64.fin 15) (Float64.fin 25) none).2
        (some (exampleObservation "metric" (Float64.fin 20)))
        = Except.ok (some r) ∧
      (Float64.fin 20 ≤ Float64.fin 5 → r.SubjectiveTemp = "cold") ∧
      (Float64.fin 5 < Float64.fin 20 → Float64.fin 20 ≤ Float64.fin 15 →
        r.SubjectiveTemp = "cool") ∧
      (Float64.fin 15 < Float64.fin 20 → Float64.fin 20 ≤ Float64.fin 25 →
        r.SubjectiveTemp = "warm") ∧
      (Float64.fin 25 < Float64.fin 20 → r.SubjectiveTemp = "hot") ∧
      (Float64.fin 20 = Float64.fin 5 → r.SubjectiveTemp = "cold") ∧
      (Float64.fin 20 = Float64.fin 15 → Float64.fin 5 < Float64.fin 15 →
        r.SubjectiveTemp = "cool") ∧
      (Float64.fin 20 = Float64.fin 25 → Float64.fin 15 < Float64.fin 25 →
        r.SubjectiveTemp = "warm") ∧
      ("metric" = "metric" → Float64.fin 5 < Float64.fin 15 ∧ Float64.fin 15 < Float64.fin 25) :=
  C1_classification ⟨fun c => c, fun _ => ""⟩ (Float64.fin 5) (Float64.fin 15) (Float64.fin 25)
    none (exampleObservation "metric" (Float64.fin 20)) ⟨802, "Clouds", "scattered clouds", "03d"⟩
    [] (Float64.fin 5) (Float64.fin 15) (Float64.fin 25) (by decide!) rfl (by decide!)

/-- C2: `SetColdCoolWarmCelsius` returns an error exactly when `cold < cool <
warm` does not hold strictly; `cold >= cool`, `cool >= warm`, `cold >= warm` and
equal boundaries are all rejected, and a rejected call leaves the registry as it
was. -/
theorem C2_error_iff_not_strictly_ordered (cold cool warm : Float64) (reg : Registry) :
    ((SetColdCoolWarmCelsius cold cool warm reg).1 ≠ none ↔ ¬ (cold < cool ∧ cool < warm)) ∧
    (cool ≤ cold → (SetColdCoolWarmCelsius cold cool warm reg).1 ≠ none) ∧
    (warm ≤ cool → (SetColdCoolWarmCelsius cold cool warm reg).1 ≠ none) ∧
    (warm ≤ cold → (SetColdCoolWarmCelsius cold cool warm reg).1 ≠ none) ∧
    (cold = cool ∨ cool = warm ∨ cold = warm →
      (SetColdCoolWarmCelsius cold cool warm reg).1 ≠ none) ∧
    ((SetColdCoolWarmCelsius cold cool warm reg).1 ≠ none →
      SetColdCoolWarmCelsius cold cool warm reg = (some (Error.order cold cool warm), reg)) := by
  have hiff : (SetColdCoolWarmCelsius cold cool warm reg).1 ≠ none ↔
      ¬ (cold < cool ∧ cool < warm) := not_congr (Set_ok_iff cold cool warm reg)
  refine ⟨hiff, ?_, ?_, ?_, ?_, ?_⟩
  · intro h
    exact hiff.mpr (fun hc => f64_not_le_of_lt hc.1 h)
  · intro h
    exact hiff.mpr (fun hc => f64_not_le_of_lt hc.2 h)
  · intro h
    exact hiff.mpr (fun hc => f64_not_le_of_lt (f64_lt_trans hc.1 hc.2) h)
  · intro h
    refine hiff.mpr (fun hc => ?_)
    rcases h with h | h | h
    · rw [h] at hc; exact f64_lt_irrefl _ hc.1
    · rw [h] at hc; exact f64_lt_irrefl _ hc.2
    · rw [h] at hc; exact f64_lt_irrefl _ (f64_lt_trans hc.1 hc.2)
  · intro h
    exact Set_err (hiff.mp h) reg

/-- C3 (counterexample): for the Celsius thresholds `0 < 2^-60 < 1` the call
succeeds and stores the Fahrenheit triple `(32, 32, 33.8)` and a Kelvin triple
whose first two members are both 273.15, so neither is strictly increasing.
Through `main`, the flag value "40,40.00000000000001,77" stores a Kelvin triple
whose first two members are equal. -/
theorem C3_counterexample :
    SetColdCoolWarmCelsius (Float64.fin 0) (Float64.fin (1 / 2 ^ 60)) (Float64.fin 1) none
      = (none, some
          [("K", [Float64.fin (2402652809016115 / 8796093022208),
                  Float64.fin (2402652809016115 / 8796093022208),
                  Float64.fin (2411448902038323 / 8796093022208)]),
           ("F", [Float64.fin 32, Float64.fin 32,
                  Float64.fin (2378463553205043 / 70368744177664)]),
           ("C", [Float64.fin 0, Float64.fin (1 / 2 ^ 60), Float64.fin 1])]) ∧
    ¬ ((Float64.fin 32 : Float64) < Float64.fin 32) ∧
    ¬ ((Float64.fin (2402652809016115 / 8796093022208) : Float64)
        < Float64.fin (2402652809016115 / 8796093022208)) ∧
    (∃ reg,
      weatherserver.mainThresholds "40,40.00000000000001,77" none = Except.ok reg ∧
      Registry.get reg "K"
        = [Float64.fin (610436638945371 / 2199023255552),
           Float64.fin (610436638945371 / 2199023255552),
           Float64.fin (2622555134571315 / 8796093022208)] ∧
      ¬ ((Float64.fin (610436638945371 / 2199023255552) : Float64)
          < Float64.fin (610436638945371 / 2199023255552))) := by
  have hmain : weatherserver.mainThresholds "40,40.00000000000001,77" none
      = Except.ok (some (builtMap
          (FahrenheitToCelsius (Float64.fin 40))
          (FahrenheitToCelsius (Float64.fin (5629499534213121 / 140737488355328)))
          (FahrenheitToCelsius (Float64.fin 77)))) := by
    decide!
  refine ⟨by decide!, f64_lt_irrefl _, f64_lt_irrefl _, _, hmain, by decide!,
    f64_lt_irrefl _⟩

/-- C3 (amended): for every `cold < cool < warm` the call succeeds and the
registry holds the input under "C", its image under `CelsiusToFahrenheit` under
"F" and its image under `CelsiusToKelvin` under "K"; the "C" triple is strictly
increasing, and the "F" and "K" triples are weakly increasing (`a <= b <= c`). -/
theorem C3_registry_triples (cold cool warm : Float64) (reg0 : Registry)
    (h1 : cold < cool) (h2 : cool < warm) :
    (SetColdCoolWarmCelsius cold cool warm reg0).1 = none ∧
    Registry.get (SetColdCoolWarmCelsius cold cool warm reg0).2 "C" = [cold, cool, warm] ∧
    Registry.get (SetColdCoolWarmCelsius cold cool warm reg0).2 "F" =
      [CelsiusToFahrenheit cold, CelsiusToFahrenheit cool, CelsiusToFahrenheit warm] ∧
    Registry.get (SetColdCoolWarmCelsius cold cool warm reg0).2 "K" =
      [CelsiusToKelvin cold, CelsiusToKelvin cool, CelsiusToKelvin warm] ∧
    (cold < cool ∧ cool < warm) ∧
    (CelsiusToFahrenheit cold ≤ CelsiusToFahrenheit cool ∧
      CelsiusToFahrenheit cool ≤ CelsiusToFahrenheit warm) ∧
    (CelsiusToKelvin cold ≤ CelsiusToKelvin cool ∧
      CelsiusToKelvin cool ≤ CelsiusToKelvin warm) := by
  rw [Set_ok h1 h2 reg0]
  refine ⟨rfl, built_get_C _ _ _, built_get_F _ _ _, built_get_K _ _ _, ⟨h1, h2⟩, ?_, ?_⟩
  · exact ⟨CelsiusToFahrenheit_mono (f64_le_of_lt h1), CelsiusToFahrenheit_mono (f64_le_of_lt h2)⟩
  · exact ⟨CelsiusToKelvin_mono (f64_le_of_lt h1), CelsiusToKelvin_mono (f64_le_of_lt h2)⟩

/-- C3 (witness): the Celsius thresholds 5, 15, 25. -/
theorem C3_registry_triples_witness :
    (SetColdCoolWarmCelsius (Float64.fin 5) (Float64.fin 15) (Float64.fin 25) none).1 = none ∧
    Registry.get (SetColdCoolWarmCelsius (Float64.fin 5) (Float64.fin 15) (Float64.fin 25) none).2
      "C" = [Float64.fin 5, Float64.fin 15, Float64.fin 25] ∧
    Registry.get (SetColdCoolWarmCelsius (Float64.fin 5) (Float64.fin 15) (Float64.fin 25) none).2
      "F" = [CelsiusToFahrenheit (Float64.fin 5), CelsiusToFahrenheit (Float64.fin 15),
        CelsiusToFahrenheit (Float64.fin 25)] ∧
    Registry.get (SetColdCoolWarmCelsius (Float64.fin 5) (Float64.fin 15) (Float64.fin 25) none).2
      "K" = [CelsiusToKelvin (Float64.fin 5), CelsiusToKelvin (Float64.fin 15),
        CelsiusToKelvin (Float64.fin 25)] ∧
    ((Float64.fin 5 : Float64) < Float64.fin 15 ∧ (Float64.fin 15 : Float64) < Float64.fin 25) ∧
    (CelsiusToFahrenheit (Float64.fin 5) ≤ CelsiusToFahrenheit (Float64.fin 15) ∧
      CelsiusToFahrenheit (Float64.fin 15) ≤ CelsiusToFahrenheit (Float64.fin 25)) ∧
    (CelsiusToKelvin (Float64.fin 5) ≤ CelsiusToKelvin (Float64.fin 15) ∧
      CelsiusToKelvin (Float64.fin 15) ≤ CelsiusToKelvin (Float64.fin 25)) :=
  C3_registry_triples (Float64.fin 5) (Float64.fin 15) (Float64.fin 25) none
    (by decide!) (by decide!)

theorem subjectiveTemp_cases (t a b c : Float64) :
    (t ≤ a ∧ subjectiveTemp t a b c = "cold") ∨
    (¬ t ≤ a ∧ t ≤ b ∧ subjectiveTemp t a b c = "cool") ∨
    (¬ t ≤ a ∧ ¬ t ≤ b ∧ t ≤ c ∧ subjectiveTemp t a b c = "warm") ∨
    (¬ t ≤ a ∧ ¬ t ≤ b ∧ ¬ t ≤ c ∧ subjectiveTemp t a b c = "hot") := by
  by_cases h1 : t ≤ a
  · exact Or.inl ⟨h1, subjectiveTemp_cold h1⟩
  by_cases h2 : t ≤ b
  · exact Or.inr (Or.inl ⟨h1, h2, subjectiveTemp_cool h1 h2⟩)
  by_cases h3 : t ≤ c
  · exact Or.inr (Or.inr (Or.inl ⟨h1, h2, h3, subjectiveTemp_warm h1 h2 h3⟩))
  · exact Or.inr (Or.inr (Or.inr ⟨h1, h2, h3, subjectiveTemp_hot h1 h2 h3⟩))

/-- Classifying `f t` against the images of the thresholds under a monotone
conversion `f` never gives a hotter bucket than classifying `t` itself. -/
theorem subjectiveTemp_never_hotter (f : Float64 → Float64)
    (hmono : ∀ x y : Float64, x ≤ y → f x ≤ f y) (t a b c : Float64) :
    (subjectiveTemp t a b c = "cold" → subjectiveTemp (f t) (f a) (f b) (f c) = "cold") ∧
    (subjectiveTemp t a b c = "cool" →
      subjectiveTemp (f t) (f a) (f b) (f c) = "cold" ∨
      subjectiveTemp (f t) (f a) (f b) (f c) = "cool") ∧
    (subjectiveTemp t a b c = "warm" → subjectiveTemp (f t) (f a) (f b) (f c) ≠ "hot") := by
  have e1 : ("cool" : String) ≠ "cold" := by decide
  have e2 : ("warm" : String) ≠ "cold" := by decide
  have e3 : ("hot" : String) ≠ "cold" := by decide
  have e4 : ("warm" : String) ≠ "cool" := by decide
  have e5 : ("hot" : String) ≠ "cool" := by decide
  have e6 : ("hot" : String) ≠ "warm" := by decide
  refine ⟨?_, ?_, ?_⟩
  · intro h
    rcases subjectiveTemp_cases t a b c with ⟨h1, _⟩ | ⟨_, _, hs⟩ | ⟨_, _, _, hs⟩ | ⟨_, _, _, hs⟩
    · exact subjectiveTemp_cold (hmono _ _ h1)
    · rw [hs] at h; exact absurd h e1
    · rw [hs] at h; exact absurd h e2
    · rw [hs] at h; exact absurd h e3
  · intro h
    rcases subjectiveTemp_cases t a b c with ⟨_, hs⟩ | ⟨_, h2, _⟩ | ⟨_, _, _, hs⟩ | ⟨_, _, _, hs⟩
    · rw [hs] at h; exact absurd h e1.symm
    · have h2f := hmono _ _ h2
      by_cases h1f : f t ≤ f a
      · exact Or.inl (subjectiveTemp_cold h1f)
      · exact Or.inr (subjectiveTemp_cool h1f h2f)
    · rw [hs] at h; exact absurd h e4
    · rw [hs] at h; exact absurd h e5
  · intro h
    rcases subjectiveTemp_cases t a b c with ⟨_, hs⟩ | ⟨_, _, hs⟩ | ⟨_, _, h3, _⟩ | ⟨_, _, _, hs⟩
    · rw [hs] at h; exact absurd h e2.symm
    · rw [hs] at h; exact absurd h e4.symm
    · have h3f := hmono _ _ h3
      rcases subjectiveTemp_cases (f t) (f a) (f b) (f c) with
        ⟨_, hs⟩ | ⟨_, _, hs⟩ | ⟨_, _, _, hs⟩ | ⟨_, _, h3n, _⟩
      · rw [hs]; exact e3.symm
      · rw [hs]; exact e5.symm
      · rw [hs]; exact e6.symm
      · exact absurd h3f h3n
    · rw [hs] at h; exact absurd h e6

/-- When the conversion keeps `t` strictly above each threshold that is strictly
below it, both classifications agree. -/
theorem subjectiveTemp_transport (f : Float64 → Float64)
    (hmono : ∀ x y : Float64, x ≤ y → f x ≤ f y) (hnan : f Float64.nan = Float64.nan)
    {t a b c : Float64} (hab : a < b) (hbc : b < c)
    (hstrict : ∀ θ : Float64, θ ∈ [a, b, c] → θ < t → f θ < f t) :
    subjectiveTemp (f t) (f a) (f b) (f c) = subjectiveTemp t a b c := by
  have ha : a ≠ Float64.nan := (f64_ne_nan_of_lt hab).1
  have hb : b ≠ Float64.nan := (f64_ne_nan_of_lt hab).2
  have hc : c ≠ Float64.nan := (f64_ne_nan_of_lt hbc).2
  have up : ∀ θ : Float64, θ ∈ [a, b, c] → θ ≠ Float64.nan → t ≠ Float64.nan → ¬ t ≤ θ →
      ¬ f t ≤ f θ := by
    intro θ hθ hθn htn hle
    rcases f64_lt_or_le θ t hθn htn with h | h
    · exact f64_not_le_of_lt (hstrict θ hθ h)
    · exact absurd h hle
  by_cases htn : t = Float64.nan
  · subst htn
    rw [hnan]
    have n1 : ∀ x : Float64, ¬ (Float64.nan ≤ x) := by
      intro x; simp [f64_le_def, Float64.le]
    rw [subjectiveTemp_hot (n1 _) (n1 _) (n1 _), subjectiveTemp_hot (n1 _) (n1 _) (n1 _)]
  rcases subjectiveTemp_cases t a b c with
    ⟨h1, hs⟩ | ⟨h1, h2, hs⟩ | ⟨h1, h2, h3, hs⟩ | ⟨h1, h2, h3, hs⟩
  · rw [hs]; exact subjectiveTemp_cold (hmono _ _ h1)
  · rw [hs]
    exact subjectiveTemp_cool (up a (by simp) ha htn h1) (hmono _ _ h2)
  · rw [hs]
    exact subjectiveTemp_warm (up a (by simp) ha htn h1) (up b (by simp) hb htn h2)
      (hmono _ _ h3)
  · rw [hs]
    exact subjectiveTemp_hot (up a (by simp) ha htn h1) (up b (by simp) hb htn h2)
      (up c (by simp) hc htn h3)

theorem CelsiusToFahrenheit_nan : CelsiusToFahrenheit Float64.nan = Float64.nan := by decide!

theorem CelsiusToKelvin_nan : CelsiusToKelvin Float64.nan = Float64.nan := by decide!

/-- C4 (counterexample): with Celsius thresholds `0 < 1 < 2` the temperature
`2^-60` is "cool" for units "metric", but its Fahrenheit image 32 and its Kelvin
image 273.15 coincide with the images of the `cold` threshold and are "cold" for
units "imperial" and "standard". With the thresholds that `main` sets for the
flag value "40,60,77", the float64 next above the Celsius `cold` threshold is
"cool" for units "metric", while its Fahrenheit image is exactly 40 and "cold"
for units "imperial". -/
theorem C4_counterexample :
    (SetColdCoolWarmCelsius (Float64.fin 0) (Float64.fin 1) (Float64.fin 2) none).1 = none ∧
    CelsiusToFahrenheit (Float64.fin (1 / 2 ^ 60)) = Float64.fin 32 ∧
    CelsiusToKelvin (Float64.fin (1 / 2 ^ 60))
      = Float64.fin (2402652809016115 / 8796093022208) ∧
    (∀ L : Lib, ∃ rm ri rk,
      SimplifyCurrentWeatherData L
          (SetColdCoolWarmCelsius (Float64.fin 0) (Float64.fin 1) (Float64.fin 2) none).2
          (some (exampleObservation "metric" (Float64.fin (1 / 2 ^ 60))))
        = Except.ok (some rm) ∧
      SimplifyCurrentWeatherData L
          (SetColdCoolWarmCelsius (Float64.fin 0) (Float64.fin 1) (Float64.fin 2) none).2
          (some (exampleObservation "imperial"
            (CelsiusToFahrenheit (Float64.fin (1 / 2 ^ 60)))))
        = Except.ok (some ri) ∧
      SimplifyCurrentWeatherData L
          (SetColdCoolWarmCelsius (Float64.fin 0) (Float64.fin 1) (Float64.fin 2) none).2
          (some (exampleObservation "standard" (CelsiusToKelvin (Float64.fin (1 / 2 ^ 60)))))
        = Except.ok (some rk) ∧
      rm.SubjectiveTemp = "cool" ∧ ri.SubjectiveTemp = "cold" ∧ rk.SubjectiveTemp = "cold" ∧
      ri.SubjectiveTemp ≠ rm.SubjectiveTemp ∧ rk.SubjectiveTemp ≠ rm.SubjectiveTemp) ∧
    (∃ reg,
      weatherserver.mainThresholds "40,60,77" none = Except.ok reg ∧
      Float64.lit (2501999792983609 / 562949953421312 + 1 / 2 ^ 50)
        = Float64.fin (2501999792983609 / 562949953421312 + 1 / 2 ^ 50) ∧
      CelsiusToFahrenheit (Float64.fin (2501999792983609 / 562949953421312 + 1 / 2 ^ 50))
        = Float64.fin 40 ∧
      ∀ L : Lib, ∃ rm ri,
        SimplifyCurrentWeatherData L reg
            (some (exampleObservation "metric"
              (Float64.fin (2501999792983609 / 562949953421312 + 1 / 2 ^ 50))))
          = Except.ok (some rm) ∧
        SimplifyCurrentWeatherData L reg
            (some (exampleObservation "imperial"
              (CelsiusToFahrenheit
                (Float64.fin (2501999792983609 / 562949953421312 + 1 / 2 ^ 50)))))
          = Except.ok (some ri) ∧
        rm.SubjectiveTemp = "cool" ∧ ri.SubjectiveTemp = "cold") := by
  have h01 : (Float64.fin 0 : Float64) < Float64.fin 1 := by decide!
  have h12 : (Float64.fin 1 : Float64) < Float64.fin 2 := by decide!
  have hmain : weatherserver.mainThresholds "40,60,77" none
      = Except.ok (some (builtMap (FahrenheitToCelsius (Float64.fin 40))
          (FahrenheitToCelsius (Float64.fin 60)) (FahrenheitToCelsius (Float64.fin 77)))) := by
    decide!
  refine ⟨by decide!, by decide!, by decide!, fun L => ?_, _, hmain, by decide!, by decide!,
    fun L => ?_⟩
  case refine_2 =>
    obtain ⟨rm, hrm, -, -, hsm, -, -⟩ :=
      Simplify_of_get L (some (builtMap (FahrenheitToCelsius (Float64.fin 40))
          (FahrenheitToCelsius (Float64.fin 60)) (FahrenheitToCelsius (Float64.fin 77))))
        (exampleObservation "metric"
          (Float64.fin (2501999792983609 / 562949953421312 + 1 / 2 ^ 50))) rfl
        (built_get_C _ _ _)
    obtain ⟨ri, hri, -, -, hsi, -, -⟩ :=
      Simplify_of_get L (some (builtMap (FahrenheitToCelsius (Float64.fin 40))
          (FahrenheitToCelsius (Float64.fin 60)) (FahrenheitToCelsius (Float64.fin 77))))
        (exampleObservation "imperial"
          (CelsiusToFahrenheit
            (Float64.fin (2501999792983609 / 562949953421312 + 1 / 2 ^ 50)))) rfl
        (built_get_F _ _ _)
    refine ⟨rm, ri, hrm, hri, ?_, ?_⟩
    · rw [hsm]; decide!
    · rw [hsi]; decide!
  rw [Set_ok h01 h12]
  obtain ⟨rm, hrm, -, -, hsm, -, -⟩ :=
    Simplify_of_get L (some (builtMap (Float64.fin 0) (Float64.fin 1) (Float64.fin 2)))
      (exampleObservation "metric" (Float64.fin (1 / 2 ^ 60))) rfl (built_get_C _ _ _)
  obtain ⟨ri, hri, -, -, hsi, -, -⟩ :=
    Simplify_of_get L (some (builtMap (Float64.fin 0) (Float64.fin 1) (Float64.fin 2)))
      (exampleObservation "imperial" (CelsiusToFahrenheit (Float64.fin (1 / 2 ^ 60)))) rfl
      (built_get_F _ _ _)
  obtain ⟨rk, hrk, -, -, hsk, -, -⟩ :=
    Simplify_of_get L (some (builtMap (Float64.fin 0) (Float64.fin 1) (Float64.fin 2)))
      (exampleObservation "standard" (CelsiusToKelvin (Float64.fin (1 / 2 ^ 60)))) rfl
      (built_get_K _ _ _)
  have em : rm.SubjectiveTemp = "cool" := by rw [hsm]; decide!
  have ei : ri.SubjectiveTemp = "cold" := by rw [hsi]; decide!
  have ek : rk.SubjectiveTemp = "cold" := by rw [hsk]; decide!
  refine ⟨rm, ri, rk, hrm, hri, hrk, em, ei, ek, ?_, ?_⟩
  · rw [em, ei]; decide
  · rw [em, ek]; decide

/-- C4 (amended): for every `cold < cool < warm` given to
`SetColdCoolWarmCelsius` and every Celsius temperature `t`, the bucket assigned
for units "imperial" to `CelsiusToFahrenheit(t)`, and for units "standard" to
`CelsiusToKelvin(t)`, is the bucket assigned for units "metric" to `t` or a
colder one, never a hotter one; and it is the same bucket whenever the conversion
keeps `t` strictly above each threshold that is strictly below `t`. -/
theorem C4_scale_never_hotter (L : Lib) (cold cool warm t : Float64) (reg0 : Registry)
    (dm di dk : CurrentWeatherData) (wm wi wk : WeatherEntry) (wsm wsi wsk : List WeatherEntry)
    (h1 : cold < cool) (h2 : cool < warm)
    (hm : dm.Units = "metric" ∧ dm.MainTemp = t ∧ dm.Weather = some (wm :: wsm))
    (hi : di.Units = "imperial" ∧ di.MainTemp = CelsiusToFahrenheit t ∧
      di.Weather = some (wi :: wsi))
    (hk : dk.Units = "standard" ∧ dk.MainTemp = CelsiusToKelvin t ∧
      dk.Weather = some (wk :: wsk)) :
    ∃ rm ri rk,
      SimplifyCurrentWeatherData L (SetColdCoolWarmCelsius cold cool warm reg0).2 (some dm)
        = Except.ok (some rm) ∧
      SimplifyCurrentWeatherData L (SetColdCoolWarmCelsius cold cool warm reg0).2 (some di)
        = Except.ok (some ri) ∧
      SimplifyCurrentWeatherData L (SetColdCoolWarmCelsius cold cool warm reg0).2 (some dk)
        = Except.ok (some rk) ∧
      (rm.SubjectiveTemp = "cold" → ri.SubjectiveTemp = "cold" ∧ rk.SubjectiveTemp = "cold") ∧
      (rm.SubjectiveTemp = "cool" →
        (ri.SubjectiveTemp = "cold" ∨ ri.SubjectiveTemp = "cool") ∧
        (rk.SubjectiveTemp = "cold" ∨ rk.SubjectiveTemp = "cool")) ∧
      (rm.SubjectiveTemp = "warm" → ri.SubjectiveTemp ≠ "hot" ∧ rk.SubjectiveTemp ≠ "hot") ∧
      ((∀ θ : Float64, θ ∈ [cold, cool, warm] → θ < t →
          CelsiusToFahrenheit θ < CelsiusToFahrenheit t) →
        ri.SubjectiveTemp = rm.SubjectiveTemp) ∧
      ((∀ θ : Float64, θ ∈ [cold, cool, warm] → θ < t →
          CelsiusToKelvin θ < CelsiusToKelvin t) →
        rk.SubjectiveTemp = rm.SubjectiveTemp) := by
  obtain ⟨hmu, hmt, hmw⟩ := hm
  obtain ⟨hiu, hit, hiw⟩ := hi
  obtain ⟨hku, hkt, hkw⟩ := hk
  rw [Set_ok h1 h2 reg0]
  have tm : unitsTag dm.Units = "C" := by rw [hmu]; decide
  have ti : unitsTag di.Units = "F" := by rw [hiu]; decide
  have tk : unitsTag dk.Units = "K" := by rw [hku]; decide
  obtain ⟨rm, hrm, -, -, hsm, -, -⟩ :=
    Simplify_of_get L (some (builtMap cold cool warm)) dm hmw
      (by rw [tm]; exact built_get_C _ _ _)
  obtain ⟨ri, hri, -, -, hsi, -, -⟩ :=
    Simplify_of_get L (some (builtMap cold cool warm)) di hiw
      (by rw [ti]; exact built_get_F _ _ _)
  obtain ⟨rk, hrk, -, -, hsk, -, -⟩ :=
    Simplify_of_get L (some (builtMap cold cool warm)) dk hkw
      (by rw [tk]; exact built_get_K _ _ _)
  rw [hmt] at hsm
  rw [hit] at hsi
  rw [hkt] at hsk
  obtain ⟨f1, f2, f3⟩ := subjectiveTemp_never_hotter CelsiusToFahrenheit
    (fun _ _ h => CelsiusToFahrenheit_mono h) t cold cool warm
  obtain ⟨k1, k2, k3⟩ := subjectiveTemp_never_hotter CelsiusToKelvin
    (fun _ _ h => CelsiusToKelvin_mono h) t cold cool warm
  refine ⟨rm, ri, rk, hrm, hri, hrk, ?_, ?_, ?_, ?_, ?_⟩
  · intro h
    rw [hsm] at h
    exact ⟨by rw [hsi]; exact f1 h, by rw [hsk]; exact k1 h⟩
  · intro h
    rw [hsm] at h
    exact ⟨by rw [hsi]; exact f2 h, by rw [hsk]; exact k2 h⟩
  · intro h
    rw [hsm] at h
    exact ⟨by rw [hsi]; exact f3 h, by rw [hsk]; exact k3 h⟩
  · intro hs
    rw [hsi, hsm]
    exact subjectiveTemp_transport CelsiusToFahrenheit (fun _ _ h => CelsiusToFahrenheit_mono h)
      CelsiusToFahrenheit_nan h1 h2 hs
  · intro hs
    rw [hsk, hsm]
    exact subjectiveTemp_transport CelsiusToKelvin (fun _ _ h => CelsiusToKelvin_mono h)
      CelsiusToKelvin_nan h1 h2 hs

/-- C4 (witness): Celsius thresholds 5, 15, 25 and the temperature 20. -/
theorem C4_scale_never_hotter_witness :
    ∃ rm ri rk,
      SimplifyCurrentWeatherData ⟨fun c => c, fun _ => ""⟩
          (SetColdCoolWarmCelsius (Float64.fin 5) (Float64.fin 15) (Float64.fin 25) none).2
          (some (exampleObservation "metric" (Float64.fin 20)))
        = Except.ok (some rm) ∧
      SimplifyCurrentWeatherData ⟨fun c => c, fun _ => ""⟩
          (SetColdCoolWarmCelsius (Float64.fin 5) (Float64.fin 15) (Float64.fin 25) none).2
          (some (exampleObservation "imperial" (CelsiusToFahrenheit (Float64.fin 20))))
        = Except.ok (some ri) ∧
      SimplifyCurrentWeatherData ⟨fun c => c, fun _ => ""⟩
          (SetColdCoolWarmCelsius (Float64.fin 5) (Float64.fin 15) (Float64.fin 25) none).2
          (some (exampleObservation "standard" (CelsiusToKelvin (Float64.fin 20))))
        = Except.ok (some rk) ∧
      (rm.SubjectiveTemp = "cold" → ri.SubjectiveTemp = "cold" ∧ rk.SubjectiveTemp = "cold") ∧
      (rm.SubjectiveTemp = "cool" →
        (ri.SubjectiveTemp = "cold" ∨ ri.SubjectiveTemp = "cool") ∧
        (rk.SubjectiveTemp = "cold" ∨ rk.SubjectiveTemp = "cool")) ∧
      (rm.SubjectiveTemp = "warm" → ri.SubjectiveTemp ≠ "hot" ∧ rk.SubjectiveTemp ≠ "hot") ∧
      ((∀ θ : Float64, θ ∈ [Float64.fin 5, Float64.fin 15, Float64.fin 25] →
          θ < Float64.fin 20 → CelsiusToFahrenheit θ < CelsiusToFahrenheit (Float64.fin 20)) →
        ri.SubjectiveTemp = rm.SubjectiveTemp) ∧
      ((∀ θ : Float64, θ ∈ [Float64.fin 5, Float64.fin 15, Float64.fin 25] →
          θ < Float64.fin 20 → CelsiusToKelvin θ < CelsiusToKelvin (Float64.fin 20)) →
        rk.SubjectiveTemp = rm.SubjectiveTemp) :=
  C4_scale_never_hotter ⟨fun c => c, fun _ => ""⟩ (Float64.fin 5) (Float64.fin 15)
    (Float64.fin 25) (Float64.fin 20) none
    (exampleObservation "metric" (Float64.fin 20))
    (exampleObservation "imperial" (CelsiusToFahrenheit (Float64.fin 20)))
    (exampleObservation "standard" (CelsiusToKelvin (Float64.fin 20)))
    ⟨802, "Clouds", "scattered clouds", "03d"⟩ ⟨802, "Clouds", "scattered clouds", "03d"⟩
    ⟨802, "Clouds", "scattered clouds", "03d"⟩ [] [] []
    (by decide!) (by decide!) ⟨rfl, rfl, rfl⟩ ⟨rfl, rfl, rfl⟩ ⟨rfl, rfl, rfl⟩

end data

/-! ## C5 and C6: the request check and the threshold parser -/

namespace Go

theorem ParseFloat_error_num {s : String} {e : strconv.NumError}
    (h : (strconv.ParseFloat s).2 = some e) : e.Num = s ∧ e.Func = "ParseFloat" := by
  unfold strconv.ParseFloat at h
  simp only at h
  split at h
  · split_ifs at h
    simp only [Option.some.injEq] at h; subst h; exact ⟨rfl, rfl⟩
  · split at h
    · simp only [Option.some.injEq] at h; subst h; exact ⟨rfl, rfl⟩
    · split at h
      · split_ifs at h
        simp only [Option.some.injEq] at h; subst h; exact ⟨rfl, rfl⟩
      · split_ifs at h
        · simp only [Option.some.injEq] at h; subst h; exact ⟨rfl, rfl⟩
        · simp only [Option.some.injEq] at h; subst h; exact ⟨rfl, rfl⟩

/-- The special values of `strconv.special` are NaN and the two infinities. -/
theorem special_value {l : List Char} {v : Float64} {n : Nat}
    (h : strconv.special l = some (v, n)) :
    v = Float64.nan ∨ v = Float64.pinf ∨ v = Float64.ninf := by
  unfold strconv.special at h
  cases l with
  | nil => simp at h
  | cons c t =>
    simp only at h
    split_ifs at h <;> simp only [Option.some.injEq, Prod.mk.injEq] at h <;>
      first
      | exact Or.inl h.1.symm
      | exact Or.inr (Or.inl h.1.symm)
      | exact Or.inr (Or.inr h.1.symm)

/-- What `strconv.ParseFloat` accepts without error: a number that rounds to a
finite float64, or a string that is as a whole one of the special spellings,
which gives NaN or an infinity. -/
theorem ParseFloat_accepts {p : String} (h : (strconv.ParseFloat p).2 = none) :
    (∃ q, (strconv.ParseFloat p).1 = Float64.fin q) ∨
    (∃ v, strconv.special p.data = some (v, p.data.length) ∧
      (v = Float64.nan ∨ v = Float64.pinf ∨ v = Float64.ninf) ∧
      (strconv.ParseFloat p).1 = v) := by
  unfold strconv.ParseFloat at h ⊢
  simp only at h ⊢
  split at h
  · rename_i f n hs
    rw [hs]
    split_ifs at h with hn
    split_ifs
    push_neg at hn
    subst hn
    exact Or.inr ⟨f, rfl, special_value hs, rfl⟩
  · rename_i hs
    rw [hs]
    split at h
    · simp at h
    · rename_i sc hr
      cases hv : roundQ sc.value with
      | fin v =>
        rw [hv] at h
        simp only at h ⊢
        split_ifs at h with hn
        rw [if_neg hn]
        exact Or.inl ⟨v, rfl⟩
      | nan => rw [hv] at h; simp only at h; split_ifs at h
      | ninf => rw [hv] at h; simp only at h; split_ifs at h
      | pinf => rw [hv] at h; simp only at h; split_ifs at h

end Go

namespace weatherserver

open Go

/-- Every rejection at the head of `getCurrentWeather` carries status 400. -/
theorem getCurrentWeather_rejected_status {q : Query} {err : RequestError} {status : Nat}
    (h : getCurrentWeather q = Checked.rejected err status) : status = 400 := by
  unfold getCurrentWeather at h
  simp only at h
  split at h
  · simp only [Checked.rejected.injEq] at h; exact h.2.symm
  · split_ifs at h <;>
      (simp only [Checked.rejected.injEq] at h; exact h.2.symm)

/-- What the head of `getCurrentWeather` lets through: a supported or empty
`units`, non-empty coordinates that `strconv.ParseFloat` accepts, and neither
coordinate below or above its bounds (comparisons that are false for NaN). -/
theorem getCurrentWeather_upstream_iff (q : Query) (lat lon : Float64) (u : String) :
    getCurrentWeather q = Checked.upstream lat lon u ↔
      (((q.units = "metric" ∨ q.units = "imperial" ∨ q.units = "standard") ∧ u = q.units) ∨
        (q.units = "" ∧ u = "metric")) ∧
      q.longitude ≠ "" ∧ q.latitude ≠ "" ∧
      strconv.ParseFloat q.longitude = (lon, none) ∧
      ¬ lon < Float64.lit (-180) ∧ ¬ Float64.lit 180 < lon ∧
      strconv.ParseFloat q.latitude = (lat, none) ∧
      ¬ lat < Float64.lit (-90) ∧ ¬ Float64.lit 90 < lat := by
  unfold getCurrentWeather
  rcases hlon : strconv.ParseFloat q.longitude with ⟨lon1, e1⟩
  rcases hlat : strconv.ParseFloat q.latitude with ⟨lat1, e2⟩
  have key : ∀ un : String,
      ((if q.longitude = "" then Checked.rejected RequestError.missingLongitude StatusBadRequest
        else if q.latitude = "" then
          Checked.rejected RequestError.missingLatitude StatusBadRequest
        else
          if e1 ≠ none ∨ lon1 < Float64.lit (-180) ∨ Float64.lit 180 < lon1 then
            Checked.rejected (RequestError.invalidLongitude q.longitude) StatusBadRequest
          else
            if e2 ≠ none ∨ lat1 < Float64.lit (-90) ∨ Float64.lit 90 < lat1 then
              Checked.rejected (RequestError.invalidLatitude q.latitude) StatusBadRequest
            else Checked.upstream lat1 lon1 un) = Checked.upstream lat lon u ↔
        u = un ∧ q.longitude ≠ "" ∧ q.latitude ≠ "" ∧
        (lon1, e1) = (lon, none) ∧
        ¬ lon < Float64.lit (-180) ∧ ¬ Float64.lit 180 < lon ∧
        (lat1, e2) = (lat, none) ∧
        ¬ lat < Float64.lit (-90) ∧ ¬ Float64.lit 90 < lat) := by
    intro un
    by_cases hl : q.longitude = ""
    · simp [hl]
    by_cases hla : q.latitude = ""
    · simp [hl, hla]
    cases e1 with
    | some e => simp [hl, hla]
    | none =>
      cases e2 with
      | some e =>
        by_cases c1 : lon1 < Float64.lit (-180) ∨ Float64.lit 180 < lon1
        · simp [hl, hla, c1]
        · simp [hl, hla, c1]
      | none =>
        by_cases c1 : lon1 < Float64.lit (-180) ∨ Float64.lit 180 < lon1
        · simp only [hl, hla, if_false, ne_eq, not_true_eq_false, false_or, c1, if_true]
          constructor
          · intro h; cases h
          · rintro ⟨-, -, -, h, h5, h6, -⟩
            simp only [Prod.mk.injEq, and_true] at h
            subst h
            rcases c1 with c | c
            · exact absurd c h5
            · exact absurd c h6
        · by_cases c2 : lat1 < Float64.lit (-90) ∨ Float64.lit 90 < lat1
          · simp only [hl, hla, if_false, ne_eq, not_true_eq_false, false_or, c1, c2, if_true]
            constructor
            · intro h; cases h
            · rintro ⟨-, -, -, -, -, -, h, h5, h6⟩
              simp only [Prod.mk.injEq, and_true] at h
              subst h
              rcases c2 with c | c
              · exact absurd c h5
              · exact absurd c h6
          · simp only [hl, hla, if_false, ne_eq, not_true_eq_false, false_or, c1, c2,
              Checked.upstream.injEq, Prod.mk.injEq, and_true, not_false_eq_true, true_and]
            push_neg at c1 c2
            constructor
            · rintro ⟨rfl, rfl, rfl⟩
              exact ⟨rfl, rfl, c1.1, c1.2, rfl, c2.1, c2.2⟩
            · rintro ⟨rfl, rfl, -, -, rfl, -, -⟩
              exact ⟨rfl, rfl, rfl⟩
  by_cases h1 : q.units = "metric"
  · rw [if_pos h1]
    simp only [hlon, hlat]
    rw [key q.units]
    simp [h1]
  by_cases h2 : q.units = "imperial"
  · rw [if_neg h1, if_pos h2]
    simp only [hlon, hlat]
    rw [key q.units]
    simp [h1, h2]
  by_cases h3 : q.units = "standard"
  · rw [if_neg h1, if_neg h2, if_pos h3]
    simp only [hlon, hlat]
    rw [key q.units]
    simp [h1, h2, h3]
  by_cases h4 : q.units = ""
  · rw [if_neg h1, if_neg h2, if_neg h3, if_pos h4]
    simp only [hlon, hlat]
    rw [key "metric"]
    simp [h1, h2, h3, h4]
  · rw [if_neg h1, if_neg h2, if_neg h3, if_neg h4]
    simp [h1, h2, h3, h4]

/-- C5 (failing input): the longitude "NaN" parses without error to NaN, both
range comparisons are false for NaN, and the request reaches the upstream call
with `lon=NaN`; the same happens for the latitude "nan". The longitude "200" is
rejected with status 400. -/
theorem C5_nan_coordinate_reaches_upstream :
    strconv.ParseFloat "NaN" = (Float64.nan, none) ∧
    ¬ (Float64.lit (-180) ≤ Float64.nan ∧ Float64.nan ≤ Float64.lit 180) ∧
    getCurrentWeather ⟨"NaN", "0", ""⟩ = Checked.upstream (Float64.fin 0) Float64.nan "metric" ∧
    getCurrentWeather ⟨"10", "nan", "imperial"⟩
      = Checked.upstream Float64.nan (Float64.fin 10) "imperial" ∧
    getCurrentWeather ⟨"200", "0", ""⟩
      = Checked.rejected (RequestError.invalidLongitude "200") 400 := by
  refine ⟨by decide!, by decide!, by decide!, by decide!, by decide!⟩

end weatherserver

namespace data

open Go

/-- C6 (counterexample): the tokens "NaN", "-Inf" and "+Inf" are accepted by
`strconv.ParseFloat` although they are not numbers: "NaN,60,77" succeeds with
NaN as the cold value, "-Inf,60,+Inf" succeeds with two infinities, and `main`
goes on with the infinite thresholds. -/
theorem C6_counterexample :
    stringsSplit "NaN,60,77" ',' = ["NaN", "60", "77"] ∧
    strconv.ParseFloat "NaN" = (Float64.nan, none) ∧
    (¬ ∃ q : ℚ, Float64.nan = Float64.fin q) ∧
    ParseColdCoolWarmValues "NaN,60,77"
      = (Float64.nan, Float64.fin 60, Float64.fin 77, none) ∧
    ParseColdCoolWarmValues "-Inf,60,+Inf"
      = (Float64.ninf, Float64.fin 60, Float64.pinf, none) ∧
    (∃ reg, weatherserver.mainThresholds "-Inf,60,+Inf" none = Except.ok reg ∧
      Registry.get reg "C"
        = [Float64.ninf, Float64.fin (8756999275442631 / 562949953421312), Float64.pinf]) := by
  refine ⟨by decide, by decide!, ?_, by decide!, by decide!, ?_⟩
  · rintro ⟨q, hq⟩
    cases hq
  · have hmain : weatherserver.mainThresholds "-Inf,60,+Inf" none
        = Except.ok (some (builtMap (FahrenheitToCelsius Float64.ninf)
            (FahrenheitToCelsius (Float64.fin 60)) (FahrenheitToCelsius Float64.pinf))) := by
      decide!
    exact ⟨_, hmain, by decide!⟩

/-- C6 (amended): `ParseColdCoolWarmValues(s)` succeeds exactly when `s` splits
on "," into three tokens that `strconv.ParseFloat` all accepts without error,
and then returns the three parsed values in token order; an accepted token is
a number that rounds to a finite float64, or as a whole one of the special
spellings, which give NaN and the infinities. With another token count the call
fails with the count error; with three tokens it fails with the parse error of
the first token that does not parse, which carries that token. "40,60,77"
yields (40, 60, 77), "40,60" the count error, "a,60,77" the error of the first
token, and "NaN,60,77" yields (NaN, 60, 77). -/
theorem C6_parse_cold_cool_warm (s : String) :
    ((ParseColdCoolWarmValues s).2.2.2 = none ↔
      ∃ p0 p1 p2, stringsSplit s ',' = [p0, p1, p2] ∧ (strconv.ParseFloat p0).2 = none ∧
        (strconv.ParseFloat p1).2 = none ∧ (strconv.ParseFloat p2).2 = none) ∧
    (∀ p0 p1 p2, stringsSplit s ',' = [p0, p1, p2] → (strconv.ParseFloat p0).2 = none →
      (strconv.ParseFloat p1).2 = none → (strconv.ParseFloat p2).2 = none →
      ParseColdCoolWarmValues s =
        ((strconv.ParseFloat p0).1, (strconv.ParseFloat p1).1, (strconv.ParseFloat p2).1, none)) ∧
    ((stringsSplit s ',').length ≠ 3 →
      ParseColdCoolWarmValues s =
        (Float64.fin 0, Float64.fin 0, Float64.fin 0,
          some (Error.count (stringsSplit s ',').length))) ∧
    (∀ p0 p1 p2, stringsSplit s ',' = [p0, p1, p2] →
      (∀ e, (strconv.ParseFloat p0).2 = some e →
        ParseColdCoolWarmValues s =
          (Float64.fin 0, Float64.fin 0, Float64.fin 0, some (Error.parseCold e)) ∧
        e.Num = p0) ∧
      (∀ e, (strconv.ParseFloat p0).2 = none → (strconv.ParseFloat p1).2 = some e →
        ParseColdCoolWarmValues s =
          (Float64.fin 0, Float64.fin 0, Float64.fin 0, some (Error.parseCool e)) ∧
        e.Num = p1) ∧
      (∀ e, (strconv.ParseFloat p0).2 = none → (strconv.ParseFloat p1).2 = none →
        (strconv.ParseFloat p2).2 = some e →
        ParseColdCoolWarmValues s =
          (Float64.fin 0, Float64.fin 0, Float64.fin 0, some (Error.parseWarm e)) ∧
        e.Num = p2)) ∧
    ParseColdCoolWarmValues "40,60,77"
      = (Float64.fin 40, Float64.fin 60, Float64.fin 77, none) ∧
    ParseColdCoolWarmValues "40,60"
      = (Float64.fin 0, Float64.fin 0, Float64.fin 0, some (Error.count 2)) ∧
    ParseColdCoolWarmValues "a,60,77"
      = (Float64.fin 0, Float64.fin 0, Float64.fin 0,
          some (Error.parseCold ⟨"ParseFloat", "a", strconv.ErrKind.ErrSyntax⟩)) ∧
    (∀ p : String, (strconv.ParseFloat p).2 = none →
      (∃ q, (strconv.ParseFloat p).1 = Float64.fin q) ∨
      (∃ v, strconv.special p.data = some (v, p.data.length) ∧
        (v = Float64.nan ∨ v = Float64.pinf ∨ v = Float64.ninf) ∧
        (strconv.ParseFloat p).1 = v)) ∧
    ParseColdCoolWarmValues "NaN,60,77"
      = (Float64.nan, Float64.fin 60, Float64.fin 77, none) := by
  have three : ∀ p0 p1 p2, stringsSplit s ',' = [p0, p1, p2] →
      ParseColdCoolWarmValues s =
        match strconv.ParseFloat p0 with
        | (_, some err) => (Float64.fin 0, Float64.fin 0, Float64.fin 0, some (Error.parseCold err))
        | (cold, none) =>
          match strconv.ParseFloat p1 with
          | (_, some err) =>
            (Float64.fin 0, Float64.fin 0, Float64.fin 0, some (Error.parseCool err))
          | (cool, none) =>
            match strconv.ParseFloat p2 with
            | (_, some err) =>
              (Float64.fin 0, Float64.fin 0, Float64.fin 0, some (Error.parseWarm err))
            | (warm, none) => (cold, cool, warm, none) := by
    intro p0 p1 p2 h
    unfold ParseColdCoolWarmValues
    simp only [h]
  have other : (stringsSplit s ',').length ≠ 3 →
      ParseColdCoolWarmValues s =
        (Float64.fin 0, Float64.fin 0, Float64.fin 0,
          some (Error.count (stringsSplit s ',').length)) := by
    intro h
    unfold ParseColdCoolWarmValues
    simp only
    split
    · rename_i p0 p1 p2 heq
      rw [heq] at h
      simp at h
    · rfl
  have ok3 : ∀ p0 p1 p2, stringsSplit s ',' = [p0, p1, p2] → (strconv.ParseFloat p0).2 = none →
      (strconv.ParseFloat p1).2 = none → (strconv.ParseFloat p2).2 = none →
      ParseColdCoolWarmValues s =
        ((strconv.ParseFloat p0).1, (strconv.ParseFloat p1).1, (strconv.ParseFloat p2).1,
          none) := by
    intro p0 p1 p2 h h0 h1 h2
    rw [three p0 p1 p2 h]
    rcases hp0 : strconv.ParseFloat p0 with ⟨v0, e0⟩
    rcases hp1 : strconv.ParseFloat p1 with ⟨v1, e1⟩
    rcases hp2 : strconv.ParseFloat p2 with ⟨v2, e2⟩
    rw [hp0] at h0; rw [hp1] at h1; rw [hp2] at h2
    simp only at h0 h1 h2
    subst h0 h1 h2
    rfl
  have err0 : ∀ p0 p1 p2, stringsSplit s ',' = [p0, p1, p2] →
      ∀ e, (strconv.ParseFloat p0).2 = some e →
        ParseColdCoolWarmValues s =
          (Float64.fin 0, Float64.fin 0, Float64.fin 0, some (Error.parseCold e)) := by
    intro p0 p1 p2 h e h0
    rw [three p0 p1 p2 h]
    rcases hp0 : strconv.ParseFloat p0 with ⟨v0, e0⟩
    rw [hp0] at h0
    simp only at h0
    subst h0
    rfl
  have err1 : ∀ p0 p1 p2, stringsSplit s ',' = [p0, p1, p2] →
      ∀ e, (strconv.ParseFloat p0).2 = none → (strconv.ParseFloat p1).2 = some e →
        ParseColdCoolWarmValues s =
          (Float64.fin 0, Float64.fin 0, Float64.fin 0, some (Error.parseCool e)) := by
    intro p0 p1 p2 h e h0 h1
    rw [three p0 p1 p2 h]
    rcases hp0 : strconv.ParseFloat p0 with ⟨v0, e0⟩
    rcases hp1 : strconv.ParseFloat p1 with ⟨v1, e1⟩
    rw [hp0] at h0; rw [hp1] at h1
    simp only at h0 h1
    subst h0 h1
    rfl
  have err2 : ∀ p0 p1 p2, stringsSplit s ',' = [p0, p1, p2] →
      ∀ e, (strconv.ParseFloat p0).2 = none → (strconv.ParseFloat p1).2 = none →
        (strconv.ParseFloat p2).2 = some e →
        ParseColdCoolWarmValues s =
          (Float64.fin 0, Float64.fin 0, Float64.fin 0, some (Error.parseWarm e)) := by
    intro p0 p1 p2 h e h0 h1 h2
    rw [three p0 p1 p2 h]
    rcases hp0 : strconv.ParseFloat p0 with ⟨v0, e0⟩
    rcases hp1 : strconv.ParseFloat p1 with ⟨v1, e1⟩
    rcases hp2 : strconv.ParseFloat p2 with ⟨v2, e2⟩
    rw [hp0] at h0; rw [hp1] at h1; rw [hp2] at h2
    simp only at h0 h1 h2
    subst h0 h1 h2
    rfl
  refine ⟨⟨?_, ?_⟩, ok3, other, ?_, by decide!, by decide!, by decide!,
    fun p hp => ParseFloat_accepts hp, by decide!⟩
  · intro hnone
    by_cases hlen : (stringsSplit s ',').length = 3
    · obtain ⟨p0, p1, p2, hsp⟩ : ∃ p0 p1 p2, stringsSplit s ',' = [p0, p1, p2] := by
        match hm : stringsSplit s ',', hlen with
        | [a, b, c], _ => exact ⟨a, b, c, rfl⟩
      refine ⟨p0, p1, p2, hsp, ?_, ?_, ?_⟩
      · cases h0 : (strconv.ParseFloat p0).2 with
        | none => rfl
        | some e => rw [err0 p0 p1 p2 hsp e h0] at hnone; simp at hnone
      · cases h0 : (strconv.ParseFloat p0).2 with
        | some e => rw [err0 p0 p1 p2 hsp e h0] at hnone; simp at hnone
        | none =>
          cases h1 : (strconv.ParseFloat p1).2 with
          | none => rfl
          | some e => rw [err1 p0 p1 p2 hsp e h0 h1] at hnone; simp at hnone
      · cases h0 : (strconv.ParseFloat p0).2 with
        | some e => rw [err0 p0 p1 p2 hsp e h0] at hnone; simp at hnone
        | none =>
          cases h1 : (strconv.ParseFloat p1).2 with
          | some e => rw [err1 p0 p1 p2 hsp e h0 h1] at hnone; simp at hnone
          | none =>
            cases h2 : (strconv.ParseFloat p2).2 with
            | none => rfl
            | some e => rw [err2 p0 p1 p2 hsp e h0 h1 h2] at hnone; simp at hnone
    · rw [other hlen] at hnone
      simp at hnone
  · rintro ⟨p0, p1, p2, hsp, h0, h1, h2⟩
    rw [ok3 p0 p1 p2 hsp h0 h1 h2]
  · intro p0 p1 p2 hsp
    refine ⟨fun e h0 => ⟨err0 p0 p1 p2 hsp e h0, (ParseFloat_error_num h0).1⟩,
      fun e h0 h1 => ⟨err1 p0 p1 p2 hsp e h0 h1, (ParseFloat_error_num h1).1⟩,
      fun e h0 h1 h2 => ⟨err2 p0 p1 p2 hsp e h0 h1 h2, (ParseFloat_error_num h2).1⟩⟩

end data

/-! ## C7: the thresholds of the reference deployment -/

namespace weatherserver

open Go data

/-- C7: with the thresholds set the way `main` does it for the flag value
"40,60,77", the stored Fahrenheit triple is exactly (40, 60, 77), and an
observation with units "imperial" and at least one condition gets the units tag
"F" and is classified: 40 "cold", 40.0001 "cool", 60 "cool", 60.0001 "warm",
65 "warm", 77 "warm", 77.0001 "hot". -/
theorem C7_reference_thresholds (L : Lib) (d : CurrentWeatherData) (w : WeatherEntry)
    (ws : List WeatherEntry) (hu : d.Units = "imperial") (hw : d.Weather = some (w :: ws)) :
    ∃ reg r,
      ParseColdCoolWarmValues "40,60,77"
        = (Float64.fin 40, Float64.fin 60, Float64.fin 77, none) ∧
      mainThresholds "40,60,77" none = Except.ok reg ∧
      Registry.get reg "F" = [Float64.fin 40, Float64.fin 60, Float64.fin 77] ∧
      SimplifyCurrentWeatherData L reg (some d) = Except.ok (some r) ∧
      r.Units = "F" ∧
      (d.MainTemp = Float64.lit 40 → r.SubjectiveTemp = "cold") ∧
      (d.MainTemp = Float64.lit (400001 / 10000) → r.SubjectiveTemp = "cool") ∧
      (d.MainTemp = Float64.lit 60 → r.SubjectiveTemp = "cool") ∧
      (d.MainTemp = Float64.lit (600001 / 10000) → r.SubjectiveTemp = "warm") ∧
      (d.MainTemp = Float64.lit 65 → r.SubjectiveTemp = "warm") ∧
      (d.MainTemp = Float64.lit 77 → r.SubjectiveTemp = "warm") ∧
      (d.MainTemp = Float64.lit (770001 / 10000) → r.SubjectiveTemp = "hot") := by
  have hmain : mainThresholds "40,60,77" none
      = Except.ok (some (builtMap (FahrenheitToCelsius (Float64.fin 40))
          (FahrenheitToCelsius (Float64.fin 60)) (FahrenheitToCelsius (Float64.fin 77)))) := by
    decide!
  have hF : Registry.get (some (builtMap (FahrenheitToCelsius (Float64.fin 40))
          (FahrenheitToCelsius (Float64.fin 60)) (FahrenheitToCelsius (Float64.fin 77)))) "F"
      = [Float64.fin 40, Float64.fin 60, Float64.fin 77] := by
    decide!
  have htag : unitsTag d.Units = "F" := by rw [hu]; decide
  obtain ⟨r, hr, hunits, -, hs, -, -⟩ :=
    Simplify_of_get L (some (builtMap (FahrenheitToCelsius (Float64.fin 40))
          (FahrenheitToCelsius (Float64.fin 60)) (FahrenheitToCelsius (Float64.fin 77)))) d hw
      (by rw [htag]; exact hF)
  refine ⟨_, r, by decide!, hmain, hF, hr, by rw [hunits, htag], ?_, ?_, ?_, ?_, ?_, ?_, ?_⟩ <;>
    (intro ht; rw [hs, ht]; decide!)

/-- C7 (witness): an imperial observation at 65 with one condition. -/
theorem C7_reference_thresholds_witness :
    ∃ reg r,
      ParseColdCoolWarmValues "40,60,77"
        = (Float64.fin 40, Float64.fin 60, Float64.fin 77, none) ∧
      mainThresholds "40,60,77" none = Except.ok reg ∧
      Registry.get reg "F" = [Float64.fin 40, Float64.fin 60, Float64.fin 77] ∧
      SimplifyCurrentWeatherData ⟨fun c => c, fun _ => ""⟩ reg
        (some (exampleObservation "imperial" (Float64.lit 65))) = Except.ok (some r) ∧
      r.Units = "F" ∧
      ((exampleObservation "imperial" (Float64.lit 65)).MainTemp = Float64.lit 40 →
        r.SubjectiveTemp = "cold") ∧
      ((exampleObservation "imperial" (Float64.lit 65)).MainTemp
          = Float64.lit (400001 / 10000) → r.SubjectiveTemp = "cool") ∧
      ((exampleObservation "imperial" (Float64.lit 65)).MainTemp = Float64.lit 60 →
        r.SubjectiveTemp = "cool") ∧
      ((exampleObservation "imperial" (Float64.lit 65)).MainTemp
          = Float64.lit (600001 / 10000) → r.SubjectiveTemp = "warm") ∧
      ((exampleObservation "imperial" (Float64.lit 65)).MainTemp = Float64.lit 65 →
        r.SubjectiveTemp = "warm") ∧
      ((exampleObservation "imperial" (Float64.lit 65)).MainTemp = Float64.lit 77 →
        r.SubjectiveTemp = "warm") ∧
      ((exampleObservation "imperial" (Float64.lit 65)).MainTemp
          = Float64.lit (770001 / 10000) → r.SubjectiveTemp = "hot") :=
  C7_reference_thresholds ⟨fun c => c, fun _ => ""⟩
    (exampleObservation "imperial" (Float64.lit 65)) ⟨802, "Clouds", "scattered clouds", "03d"⟩
    [] rfl rfl

end weatherserver

/-! ## C8 and C9: nil results and the threshold lookup -/

namespace data

open Go

theorem Simplify_nil_data (L : Lib) (reg : Registry) :
    SimplifyCurrentWeatherData L reg none = Except.ok none := rfl

theorem Simplify_no_conditions (L : Lib) (reg : Registry) (d : CurrentWeatherData)
    (h : d.Weather = none ∨ d.Weather = some []) :
    SimplifyCurrentWeatherData L reg (some d) = Except.ok none := by
  unfold SimplifyCurrentWeatherData
  rcases h with h | h <;> simp only [h]

/-- With at least one condition the result is a panic or a record, never nil. -/
theorem Simplify_conditions_ne_nil (L : Lib) (reg : Registry) (d : CurrentWeatherData)
    {w : WeatherEntry} {ws : List WeatherEntry} (hw : d.Weather = some (w :: ws)) :
    SimplifyCurrentWeatherData L reg (some d) ≠ Except.ok none := by
  unfold SimplifyCurrentWeatherData
  simp only [hw]
  split <;> simp

/-- The lookup of an absent key, or in a nil map, makes the indexing `m[0]` panic. -/
theorem Simplify_of_get_nil (L : Lib) (reg : Registry) (d : CurrentWeatherData)
    {w : WeatherEntry} {ws : List WeatherEntry} (hw : d.Weather = some (w :: ws))
    (hg : reg.get (unitsTag d.Units) = []) :
    SimplifyCurrentWeatherData L reg (some d) = Except.error (Panic.indexOutOfRange 0 0) := by
  unfold SimplifyCurrentWeatherData
  simp only [hw, hg]

/-- The lookup in a built registry under the tag of a supported unit. -/
theorem built_get_unit (a b c : Float64) {u : String}
    (hu : u = "standard" ∨ u = "metric" ∨ u = "imperial") :
    ∃ x y z, Registry.get (some (builtMap a b c)) (unitsTag u) = [x, y, z] := by
  rcases hu with h | h | h <;> subst h
  · exact ⟨_, _, _, built_get_K a b c⟩
  · exact ⟨_, _, _, built_get_C a b c⟩
  · exact ⟨_, _, _, built_get_F a b c⟩

/-- C8: `SimplifyCurrentWeatherData` returns nil exactly when the observation is
nil or has no condition entry (`Weather` nil or empty); for an observation with
at least one condition entry, a unit among "standard", "metric", "imperial" and a
registry built by a successful `SetColdCoolWarmCelsius` it returns a record. -/
theorem C8_nil_iff_no_conditions (L : Lib) (reg : Registry) (data : Option CurrentWeatherData) :
    (SimplifyCurrentWeatherData L reg data = Except.ok none ↔
      (data = none ∨ ∃ d, data = some d ∧ (d.Weather = none ∨ d.Weather = some []))) ∧
    (∀ d w ws c0 c1 c2 reg0, data = some d → d.Weather = some (w :: ws) →
      (d.Units = "standard" ∨ d.Units = "metric" ∨ d.Units = "imperial") →
      SetColdCoolWarmCelsius c0 c1 c2 reg0 = (none, reg) →
      ∃ r, SimplifyCurrentWeatherData L reg data = Except.ok (some r)) := by
  constructor
  · constructor
    · intro h
      cases data with
      | none => exact Or.inl rfl
      | some d =>
        refine Or.inr ⟨d, rfl, ?_⟩
        cases hw : d.Weather with
        | none => exact Or.inl rfl
        | some l =>
          cases l with
          | nil => exact Or.inr rfl
          | cons w ws => exact absurd h (Simplify_conditions_ne_nil L reg d hw)
    · rintro (h | ⟨d, h, hw⟩)
      · subst h; rfl
      · subst h; exact Simplify_no_conditions L reg d hw
  · intro d w ws c0 c1 c2 reg0 hd hw hu hset
    subst hd
    have hok : (SetColdCoolWarmCelsius c0 c1 c2 reg0).1 = none := by rw [hset]
    have hlt := (Set_ok_iff c0 c1 c2 reg0).mp hok
    rw [Set_ok hlt.1 hlt.2 reg0] at hset
    simp only [Prod.mk.injEq, true_and] at hset
    subst hset
    obtain ⟨x, y, z, hg⟩ := built_get_unit c0 c1 c2 hu
    obtain ⟨r, hr, -⟩ := Simplify_of_get L (some (builtMap c0 c1 c2)) d hw hg
    exact ⟨r, hr⟩

/-- C9: for an observation with at least one condition, the lookup yields no
triple and the call panics instead of returning a record when the registry is
still nil (no call of `SetColdCoolWarmCelsius` has succeeded) or when the unit
is none of "standard", "metric", "imperial"; after a successful
`SetColdCoolWarmCelsius` and for one of these units (keys "K", "C", "F") the
lookup yields a triple and a record is returned. -/
theorem C9_threshold_lookup (L : Lib) (d : CurrentWeatherData) (w : WeatherEntry)
    (ws : List WeatherEntry) (hw : d.Weather = some (w :: ws)) :
    (Registry.get none (unitsTag d.Units) = [] ∧
      SimplifyCurrentWeatherData L none (some d) = Except.error (Panic.indexOutOfRange 0 0)) ∧
    (∀ c0 c1 c2, (SetColdCoolWarmCelsius c0 c1 c2 none).1 ≠ none →
      (SetColdCoolWarmCelsius c0 c1 c2 none).2 = none) ∧
    (d.Units ≠ "standard" → d.Units ≠ "metric" → d.Units ≠ "imperial" →
      ∀ c0 c1 c2 reg0, (SetColdCoolWarmCelsius c0 c1 c2 reg0).1 = none →
        Registry.get (SetColdCoolWarmCelsius c0 c1 c2 reg0).2 (unitsTag d.Units) = [] ∧
        SimplifyCurrentWeatherData L (SetColdCoolWarmCelsius c0 c1 c2 reg0).2 (some d)
          = Except.error (Panic.indexOutOfRange 0 0)) ∧
    (d.Units = "standard" ∨ d.Units = "metric" ∨ d.Units = "imperial" →
      ∀ c0 c1 c2 reg0, (SetColdCoolWarmCelsius c0 c1 c2 reg0).1 = none →
        ∃ x y z r,
          Registry.get (SetColdCoolWarmCelsius c0 c1 c2 reg0).2 (unitsTag d.Units) = [x, y, z] ∧
          SimplifyCurrentWeatherData L (SetColdCoolWarmCelsius c0 c1 c2 reg0).2 (some d)
            = Except.ok (some r)) ∧
    (unitsTag "standard" = "K" ∧ unitsTag "metric" = "C" ∧ unitsTag "imperial" = "F") := by
  refine ⟨⟨rfl, Simplify_of_get_nil L none d hw rfl⟩, ?_, ?_, ?_, by decide⟩
  · intro c0 c1 c2 h
    have hn : ¬ (c0 < c1 ∧ c1 < c2) := fun hc => h ((Set_ok_iff c0 c1 c2 none).mpr hc)
    rw [Set_err hn]
  · intro h1 h2 h3 c0 c1 c2 reg0 hset
    have hlt := (Set_ok_iff c0 c1 c2 reg0).mp hset
    rw [Set_ok hlt.1 hlt.2 reg0]
    have htag : unitsTag d.Units = "" := by
      rcases unitsTag_cases d.Units with ⟨h, _⟩ | ⟨h, _⟩ | ⟨h, _⟩ | ⟨_, _, _, h⟩
      · exact absurd h h1
      · exact absurd h h2
      · exact absurd h h3
      · exact h
    have hg : Registry.get (some (builtMap c0 c1 c2)) (unitsTag d.Units) = [] := by
      rw [htag]
      exact built_get_other c0 c1 c2 "" (by decide) (by decide) (by decide)
    exact ⟨hg, Simplify_of_get_nil L _ d hw hg⟩
  · intro hu c0 c1 c2 reg0 hset
    have hlt := (Set_ok_iff c0 c1 c2 reg0).mp hset
    rw [Set_ok hlt.1 hlt.2 reg0]
    obtain ⟨x, y, z, hg⟩ := built_get_unit c0 c1 c2 hu
    obtain ⟨r, hr, -⟩ := Simplify_of_get L (some (builtMap c0 c1 c2)) d hw hg
    exact ⟨x, y, z, r, hg, hr⟩

/-- C9 (witness): an observation with one condition and units "metric". -/
theorem C9_threshold_lookup_witness :
    (Registry.get none (unitsTag (exampleObservation "metric" (Float64.fin 20)).Units) = [] ∧
      SimplifyCurrentWeatherData ⟨fun c => c, fun _ => ""⟩ none
          (some (exampleObservation "metric" (Float64.fin 20)))
        = Except.error (Panic.indexOutOfRange 0 0)) ∧
    (∀ c0 c1 c2, (SetColdCoolWarmCelsius c0 c1 c2 none).1 ≠ none →
      (SetColdCoolWarmCelsius c0 c1 c2 none).2 = none) ∧
    ((exampleObservation "metric" (Float64.fin 20)).Units ≠ "standard" →
      (exampleObservation "metric" (Float64.fin 20)).Units ≠ "metric" →
      (exampleObservation "metric" (Float64.fin 20)).Units ≠ "imperial" →
      ∀ c0 c1 c2 reg0, (SetColdCoolWarmCelsius c0 c1 c2 reg0).1 = none →
        Registry.get (SetColdCoolWarmCelsius c0 c1 c2 reg0).2
          (unitsTag (exampleObservation "metric" (Float64.fin 20)).Units) = [] ∧
        SimplifyCurrentWeatherData ⟨fun c => c, fun _ => ""⟩
            (SetColdCoolWarmCelsius c0 c1 c2 reg0).2
            (some (exampleObservation "metric" (Float64.fin 20)))
          = Except.error (Panic.indexOutOfRange 0 0)) ∧
    ((exampleObservation "metric" (Float64.fin 20)).Units = "standard" ∨
      (exampleObservation "metric" (Float64.fin 20)).Units = "metric" ∨
      (exampleObservation "metric" (Float64.fin 20)).Units = "imperial" →
      ∀ c0 c1 c2 reg0, (SetColdCoolWarmCelsius c0 c1 c2 reg0).1 = none →
        ∃ x y z r,
          Registry.get (SetColdCoolWarmCelsius c0 c1 c2 reg0).2
            (unitsTag (exampleObservation "metric" (Float64.fin 20)).Units) = [x, y, z] ∧
          SimplifyCurrentWeatherData ⟨fun c => c, fun _ => ""⟩
              (SetColdCoolWarmCelsius c0 c1 c2 reg0).2
              (some (exampleObservation "metric" (Float64.fin 20)))
            = Except.ok (some r)) ∧
    (unitsTag "standard" = "K" ∧ unitsTag "metric" = "C" ∧ unitsTag "imperial" = "F") :=
  C9_threshold_lookup ⟨fun c => c, fun _ => ""⟩ (exampleObservation "metric" (Float64.fin 20))
    ⟨802, "Clouds", "scattered clouds", "03d"⟩ [] rfl

end data

/-! ## C10: the condition and description lists -/

namespace Go

theorem splitChars_of_not_mem (sep : Char) :
    ∀ x : List Char, sep ∉ x → splitChars sep x = [x] := by
  intro x
  induction x with
  | nil => intro _; rfl
  | cons c cs ih =>
    intro h
    have hc : c ≠ sep := fun e => h (by rw [e]; exact List.mem_cons_self _ _)
    have hcs : sep ∉ cs := fun e => h (List.mem_cons_of_mem _ e)
    simp only [splitChars, hc, if_false, ih hcs]

theorem splitChars_append (sep : Char) (rest : List Char) :
    ∀ x : List Char, sep ∉ x →
      splitChars sep (x ++ sep :: rest) = x :: splitChars sep rest := by
  intro x
  induction x with
  | nil => intro _; simp [splitChars]
  | cons c cs ih =>
    intro h
    have hc : c ≠ sep := fun e => h (by rw [e]; exact List.mem_cons_self _ _)
    have hcs : sep ∉ cs := fun e => h (List.mem_cons_of_mem _ e)
    have e : splitChars sep (c :: (cs ++ sep :: rest))
        = (c :: cs) :: splitChars sep rest := by
      simp only [splitChars, hc, if_false]
      rw [ih hcs]
    exact e

/-- Splitting a join gives the pieces back when no piece holds the separator. -/
theorem splitChars_joinChars (sep : Char) :
    ∀ xs : List (List Char), xs ≠ [] → (∀ x ∈ xs, sep ∉ x) →
      splitChars sep (joinChars [sep] xs) = xs := by
  intro xs
  induction xs with
  | nil => intro h; exact absurd rfl h
  | cons x rest ih =>
    intro _ hall
    cases rest with
    | nil =>
      simp only [joinChars]
      exact splitChars_of_not_mem sep x (hall x (List.mem_cons_self _ _))
    | cons y ys =>
      have hx : sep ∉ x := hall x (List.mem_cons_self _ _)
      have hrest : ∀ z ∈ y :: ys, sep ∉ z := fun z hz => hall z (List.mem_cons_of_mem _ hz)
      simp only [joinChars, List.append_assoc, List.singleton_append]
      rw [splitChars_append sep _ x hx, ih (by simp) hrest]

theorem map_joinChars (f : Char → Char) (sep : List Char) :
    ∀ xs : List (List Char),
      (joinChars sep xs).map f = joinChars (sep.map f) (xs.map (List.map f)) := by
  intro xs
  induction xs with
  | nil => rfl
  | cons x rest ih =>
    cases rest with
    | nil => rfl
    | cons y ys =>
      simp only [joinChars, List.map_append, List.map_cons] at ih ⊢
      rw [ih]

theorem upper_toNat {c : Char} (h1 : 'A' ≤ c) (h2 : c ≤ 'Z') :
    65 ≤ c.toNat ∧ c.toNat ≤ 90 := by
  rw [Char.le_def] at h1 h2
  exact ⟨h1, h2⟩

theorem lowered_ne_comma {c : Char} (h1 : 'A' ≤ c) (h2 : c ≤ 'Z') :
    Char.ofNat (c.toNat + 32) ≠ ',' := by
  obtain ⟨a, b⟩ := upper_toNat h1 h2
  generalize c.toNat = n at a b
  interval_cases n <;> decide

theorem unicodeToLower_comma (L : Lib) : unicodeToLower L ',' = ',' := rfl

/-- Only the comma is lower-cased to a comma, when the case table has no comma
among its values. -/
theorem unicodeToLower_eq_comma (L : Lib)
    (hT : ∀ c : Char, 0x7F < c.toNat → L.toLowerTable c ≠ ',')
    {c : Char} (h : unicodeToLower L c = ',') : c = ',' := by
  unfold unicodeToLower at h
  split_ifs at h with h1 h2
  · exact absurd h (lowered_ne_comma h2.1 h2.2)
  · exact h
  · exact absurd h (hT c (not_le.mp h1))

/-- Lower-casing a join is the join of the lower-cased strings. -/
theorem stringsToLower_stringsJoin (L : Lib) (names : List String) :
    stringsToLower L (stringsJoin names ",")
      = stringsJoin (names.map (stringsToLower L)) "," := by
  unfold stringsToLower stringsJoin
  simp only
  rw [map_joinChars]
  have hsep : List.map (unicodeToLower L) ",".data = ",".data := rfl
  rw [hsep]
  simp [List.map_map, Function.comp_def]

/-- The comma-separated items of a lower-cased join are the lower-cased
strings, in order, when no string holds a comma. -/
theorem stringsSplit_lower_join (L : Lib)
    (hT : ∀ c : Char, 0x7F < c.toNat → L.toLowerTable c ≠ ',')
    (names : List String) (hne : names ≠ []) (hno : ∀ s ∈ names, ',' ∉ s.data) :
    stringsSplit (stringsToLower L (stringsJoin names ",")) ','
      = names.map (stringsToLower L) := by
  unfold stringsSplit stringsToLower stringsJoin
  simp only
  rw [map_joinChars]
  have hsep : List.map (unicodeToLower L) ",".data = [','] := rfl
  rw [hsep, splitChars_joinChars]
  · simp [List.map_map, Function.comp_def]
  · simpa using hne
  · intro x hx
    simp only [List.mem_map, List.map_map, Function.comp_def] at hx
    obtain ⟨s, hs, rfl⟩ := hx
    intro hmem
    simp only [List.mem_map] at hmem
    obtain ⟨c, hc, hcc⟩ := hmem
    have := unicodeToLower_eq_comma L hT hcc
    subst this
    exact hno s hs hc

end Go

namespace data

open Go

/-- C10 (counterexample): for the two condition entries "Rain,Snow" and
"Clouds" the record's `ExpectedWeather` is "rain,snow,clouds"; it has three
comma-separated items, and the second one is "snow", not the lower-cased second
entry "clouds". -/
theorem C10_counterexample :
    commaObservation.Weather
      = some [⟨500, "Rain,Snow", "light rain", "10d"⟩,
              ⟨802, "Clouds", "scattered clouds", "03d"⟩] ∧
    ∀ L : Lib, ∃ r,
      SimplifyCurrentWeatherData L
          (SetColdCoolWarmCelsius (Float64.fin 5) (Float64.fin 15) (Float64.fin 25) none).2
          (some commaObservation)
        = Except.ok (some r) ∧
      r.ExpectedWeather = "rain,snow,clouds" ∧
      stringsSplit r.ExpectedWeather ',' = ["rain", "snow", "clouds"] ∧
      stringsToLower L "Clouds" = "clouds" ∧
      (stringsSplit r.ExpectedWeather ',').getD 1 "" ≠ stringsToLower L "Clouds" := by
  refine ⟨rfl, fun L => ?_⟩
  have hget : Registry.get
      (SetColdCoolWarmCelsius (Float64.fin 5) (Float64.fin 15) (Float64.fin 25) none).2
      (unitsTag commaObservation.Units)
      = [Float64.fin 5, Float64.fin 15, Float64.fin 25] := by decide!
  obtain ⟨r, hr, -, -, -, he, -⟩ :=
    Simplify_of_get L
      (SetColdCoolWarmCelsius (Float64.fin 5) (Float64.fin 15) (Float64.fin 25) none).2
      commaObservation rfl hget
  have he2 : r.ExpectedWeather = "rain,snow,clouds" := by rw [he]; rfl
  have hl : stringsToLower L "Clouds" = "clouds" := rfl
  refine ⟨r, hr, he2, ?_, hl, ?_⟩
  · rw [he2]; decide
  · rw [he2, hl]; decide

/-- C10 (amended): for every observation with `n >= 1` condition entries for
which a record is built, `ExpectedWeather` is the lower-cased comma-join of the
`n` main-condition strings and `WeatherDescription` the lower-cased comma-join of
the `n` description strings, in the provider's order: each is the comma-join of
the lower-cased entries, and when no entry contains a comma its comma-separated
items are exactly the `n` lower-cased entries in order, repeated entries
included. The case table of `unicode.ToLower` for the runes above `MaxASCII` is
assumed to have no comma among its values. -/
theorem C10_condition_lists (L : Lib) (reg : Registry) (d : CurrentWeatherData)
    (w : WeatherEntry) (ws : List WeatherEntry) (cold cool warm : Float64) (rest : List Float64)
    (hw : d.Weather = some (w :: ws))
    (hg : reg.get (unitsTag d.Units) = cold :: cool :: warm :: rest) :
    ∃ r, SimplifyCurrentWeatherData L reg (some d) = Except.ok (some r) ∧
      r.ExpectedWeather
        = stringsToLower L (stringsJoin ((w :: ws).map (fun e => e.Main)) ",") ∧
      r.WeatherDescription
        = stringsToLower L (stringsJoin ((w :: ws).map (fun e => e.Description)) ",") ∧
      r.ExpectedWeather
        = stringsJoin ((w :: ws).map (fun e => stringsToLower L e.Main)) "," ∧
      r.WeatherDescription
        = stringsJoin ((w :: ws).map (fun e => stringsToLower L e.Description)) "," ∧
      ((∀ c : Char, 0x7F < c.toNat → L.toLowerTable c ≠ ',') → (∀ e ∈ w :: ws, ',' ∉ e.Main.data) →
        stringsSplit r.ExpectedWeather ','
          = (w :: ws).map (fun e => stringsToLower L e.Main)) ∧
      ((∀ c : Char, 0x7F < c.toNat → L.toLowerTable c ≠ ',') → (∀ e ∈ w :: ws, ',' ∉ e.Description.data) →
        stringsSplit r.WeatherDescription ','
          = (w :: ws).map (fun e => stringsToLower L e.Description)) := by
  obtain ⟨r, hr, -, -, -, he, hd⟩ := Simplify_of_get L reg d hw hg
  refine ⟨r, hr, he, hd, ?_, ?_, ?_, ?_⟩
  · rw [he, stringsToLower_stringsJoin, List.map_map]; rfl
  · rw [hd, stringsToLower_stringsJoin, List.map_map]; rfl
  · intro hT hno
    rw [he, stringsSplit_lower_join L hT _ (by simp), List.map_map]
    · rfl
    · intro s hs
      simp only [List.mem_map] at hs
      obtain ⟨e, he', rfl⟩ := hs
      exact hno e he'
  · intro hT hno
    rw [hd, stringsSplit_lower_join L hT _ (by simp), List.map_map]
    · rfl
    · intro s hs
      simp only [List.mem_map] at hs
      obtain ⟨e, he', rfl⟩ := hs
      exact hno e he'

/-- C10 (witness): a metric observation with the three entries "Clouds",
"Rain", "Clouds" and the Celsius thresholds 5, 15, 25. -/
theorem C10_condition_lists_witness :
    ∃ r, SimplifyCurrentWeatherData (⟨fun c => c, fun _ => ""⟩ : Lib)
        (SetColdCoolWarmCelsius (Float64.fin 5) (Float64.fin 15) (Float64.fin 25) none).2
        (some repeatedObservation) = Except.ok (some r) ∧
      r.ExpectedWeather
        = stringsToLower (⟨fun c => c, fun _ => ""⟩ : Lib)
            (stringsJoin ([(⟨802, "Clouds", "scattered clouds", "03d"⟩ : WeatherEntry),
          ⟨500, "Rain", "light rain", "10d"⟩, ⟨802, "Clouds", "scattered clouds", "03d"⟩].map
              (fun e => e.Main)) ",") ∧
      r.WeatherDescription
        = stringsToLower (⟨fun c => c, fun _ => ""⟩ : Lib)
            (stringsJoin ([(⟨802, "Clouds", "scattered clouds", "03d"⟩ : WeatherEntry),
          ⟨500, "Rain", "light rain", "10d"⟩, ⟨802, "Clouds", "scattered clouds", "03d"⟩].map
              (fun e => e.Description)) ",") ∧
      r.ExpectedWeather
        = stringsJoin ([(⟨802, "Clouds", "scattered clouds", "03d"⟩ : WeatherEntry),
          ⟨500, "Rain", "light rain", "10d"⟩, ⟨802, "Clouds", "scattered clouds", "03d"⟩].map
            (fun e => stringsToLower (⟨fun c => c, fun _ => ""⟩ : Lib) e.Main)) "," ∧
      r.WeatherDescription
        = stringsJoin ([(⟨802, "Clouds", "scattered clouds", "03d"⟩ : WeatherEntry),
          ⟨500, "Rain", "light rain", "10d"⟩, ⟨802, "Clouds", "scattered clouds", "03d"⟩].map
            (fun e => stringsToLower (⟨fun c => c, fun _ => ""⟩ : Lib) e.Description)) "," ∧
      ((∀ c : Char, 0x7F < c.toNat → (⟨fun c => c, fun _ => ""⟩ : Lib).toLowerTable c ≠ ',') →
        (∀ e ∈ [(⟨802, "Clouds", "scattered clouds", "03d"⟩ : WeatherEntry),
          ⟨500, "Rain", "light rain", "10d"⟩, ⟨802, "Clouds", "scattered clouds", "03d"⟩],
          ',' ∉ e.Main.data) →
        stringsSplit r.ExpectedWeather ','
          = [(⟨802, "Clouds", "scattered clouds", "03d"⟩ : WeatherEntry),
          ⟨500, "Rain", "light rain", "10d"⟩, ⟨802, "Clouds", "scattered clouds", "03d"⟩].map
              (fun e => stringsToLower (⟨fun c => c, fun _ => ""⟩ : Lib) e.Main)) ∧
      ((∀ c : Char, 0x7F < c.toNat → (⟨fun c => c, fun _ => ""⟩ : Lib).toLowerTable c ≠ ',') →
        (∀ e ∈ [(⟨802, "Clouds", "scattered clouds", "03d"⟩ : WeatherEntry),
          ⟨500, "Rain", "light rain", "10d"⟩, ⟨802, "Clouds", "scattered clouds", "03d"⟩],
          ',' ∉ e.Description.data) →
        stringsSplit r.WeatherDescription ','
          = [(⟨802, "Clouds", "scattered clouds", "03d"⟩ : WeatherEntry),
          ⟨500, "Rain", "light rain", "10d"⟩, ⟨802, "Clouds", "scattered clouds", "03d"⟩].map
              (fun e => stringsToLower (⟨fun c => c, fun _ => ""⟩ : Lib) e.Description)) :=
  C10_condition_lists ⟨fun c => c, fun _ => ""⟩
    (SetColdCoolWarmCelsius (Float64.fin 5) (Float64.fin 15) (Float64.fin 25) none).2
    repeatedObservation ⟨802, "Clouds", "scattered clouds", "03d"⟩
    [⟨500, "Rain", "light rain", "10d"⟩, ⟨802, "Clouds", "scattered clouds", "03d"⟩]
    (Float64.fin 5) (Float64.fin 15) (Float64.fin 25) [] rfl (by decide!)

end data

/-! ## C11: the round trip through Fahrenheit -/

namespace Go

theorem rne_error (s : ℚ) : |((rne s : ℤ) : ℚ) - s| ≤ 1 / 2 := by
  have h1 : ((⌊s⌋ : ℤ) : ℚ) ≤ s := Int.floor_le s
  have h2 : s < ((⌊s⌋ : ℤ) : ℚ) + 1 := Int.lt_floor_add_one s
  unfold rne
  simp only
  rw [abs_le]
  split_ifs with c1 c2 c3
  · constructor <;> linarith
  · push_cast; constructor <;> linarith
  · have : s - ((⌊s⌋ : ℤ) : ℚ) = 1 / 2 := le_antisymm (not_lt.mp c2) (not_lt.mp c1)
    constructor <;> linarith
  · have : s - ((⌊s⌋ : ℤ) : ℚ) = 1 / 2 := le_antisymm (not_lt.mp c2) (not_lt.mp c1)
    push_cast; constructor <;> linarith

/-- The unit in the last place of a value below `2^m`. -/
theorem ulpExp_le_of_lt {q : ℚ} {m : ℤ} (hm : -1021 ≤ m) (hq : |q| < (2 : ℚ) ^ m) :
    ulpExp q ≤ m - 53 := by
  unfold ulpExp
  split_ifs with h0
  · omega
  · have hpos : 0 < |q| := abs_pos.mpr h0
    obtain ⟨hlo, -⟩ := ilog2_spec hpos
    have hlt : (2 : ℚ) ^ ilog2 |q| < (2 : ℚ) ^ m := lt_of_le_of_lt hlo hq
    have hi : ilog2 |q| < m := (zpow_lt_zpow_iff_right₀ (by norm_num : (1 : ℚ) < 2)).mp hlt
    have := max_le (by omega : ilog2 |q| ≤ m - 1) (by omega : (-1022 : ℤ) ≤ m - 1)
    omega

/-- Rounding a value below `2^m` in magnitude moves it by at most `2^(m-54)`,
half a unit in the last place, and keeps it at most `2^m` in magnitude. -/
theorem roundFin_near {q : ℚ} {m : ℤ} (hm : -1021 ≤ m) (hq : |q| < (2 : ℚ) ^ m) :
    |roundFin q - q| ≤ (2 : ℚ) ^ (m - 54) ∧ |roundFin q| ≤ (2 : ℚ) ^ m := by
  have hk := ulpExp_le_of_lt hm hq
  have hp : (0 : ℚ) < (2 : ℚ) ^ ulpExp q := zpow_pos (by norm_num) _
  constructor
  · have herr := rne_error (q / (2 : ℚ) ^ ulpExp q)
    have e : roundFin q - q
        = (((rne (q / (2 : ℚ) ^ ulpExp q) : ℤ) : ℚ) - q / (2 : ℚ) ^ ulpExp q)
          * (2 : ℚ) ^ ulpExp q := by
      unfold roundFin
      field_simp
    rw [e, abs_mul, abs_of_pos hp]
    have h1 : |((rne (q / (2 : ℚ) ^ ulpExp q) : ℤ) : ℚ) - q / (2 : ℚ) ^ ulpExp q|
        * (2 : ℚ) ^ ulpExp q ≤ 1 / 2 * (2 : ℚ) ^ ulpExp q :=
      mul_le_mul_of_nonneg_right herr (le_of_lt hp)
    have h2 : 1 / 2 * (2 : ℚ) ^ ulpExp q = (2 : ℚ) ^ (ulpExp q - 1) := by
      rw [zpow_sub₀ (by norm_num : (2 : ℚ) ≠ 0)]
      simp
      ring
    have h3 : (2 : ℚ) ^ (ulpExp q - 1) ≤ (2 : ℚ) ^ (m - 54) :=
      zpow_le_zpow_right₀ (by norm_num) (by omega)
    linarith
  · obtain ⟨j, hj⟩ : ∃ j : ℕ, m = ulpExp q + j := ⟨(m - ulpExp q).toNat, by omega⟩
    have hg := two_zpow_grid (ulpExp q) j
    rw [← hj] at hg
    have hq2 := abs_lt.mp hq
    rw [abs_le]
    constructor
    · have : -(2 : ℚ) ^ m = ((-(2 ^ j) : ℤ) : ℚ) * (2 : ℚ) ^ ulpExp q := by
        rw [hg]; push_cast; ring
      unfold roundFin
      rw [this]
      apply le_rne_of_le
      rw [← this]; exact le_of_lt hq2.1
    · unfold roundFin
      rw [hg]
      apply rne_le_of_le
      rw [← hg]; exact le_of_lt hq2.2

/-- Below the overflow threshold the rounded result is finite and near. -/
theorem roundQ_near {q : ℚ} {m : ℤ} (hm : -1021 ≤ m) (hm2 : m ≤ 1023)
    (hq : |q| < (2 : ℚ) ^ m) :
    ∃ v, roundQ q = Float64.fin v ∧ |v - q| ≤ (2 : ℚ) ^ (m - 54) := by
  obtain ⟨herr, hmag⟩ := roundFin_near hm hq
  have hpow : (2 : ℚ) ^ m < (2 : ℚ) ^ (1024 : ℤ) :=
    zpow_lt_zpow_right₀ (by norm_num) (by omega)
  have hb := abs_le.mp hmag
  refine ⟨roundFin q, ?_, herr⟩
  unfold roundQ
  simp only
  rw [if_neg (by linarith), if_neg (by linarith)]

end Go

namespace data

open Go

theorem f64_ops_fin (a b : ℚ) :
    (Float64.fin a * Float64.fin b = roundQ (a * b)) ∧
    (Float64.fin a + Float64.fin b = roundQ (a + b)) ∧
    (Float64.fin a - Float64.fin b = roundQ (a - b)) ∧
    (b ≠ 0 → Float64.fin a / Float64.fin b = roundQ (a / b)) := by
  refine ⟨rfl, rfl, rfl, ?_⟩
  intro hb
  simp [f64_div_def, Float64.div, hb]

/-- One rounded operation on a value below `2^m`: the result is finite and
within `2^(m-54)` of the exact value. -/
theorem roundQ_step {q : ℚ} (m : ℤ) (hm : -1021 ≤ m) (hm2 : m ≤ 1023)
    (hlo : -(2 : ℚ) ^ m < q) (hhi : q < (2 : ℚ) ^ m) :
    ∃ v, roundQ q = Float64.fin v ∧ -(2 : ℚ) ^ (m - 54) ≤ v - q ∧ v - q ≤ (2 : ℚ) ^ (m - 54) := by
  obtain ⟨v, hv, he⟩ := roundQ_near hm hm2 (abs_lt.mpr ⟨hlo, hhi⟩)
  exact ⟨v, hv, (abs_le.mp he).1, (abs_le.mp he).2⟩

/-- The round trip on a finite value of magnitude at most `10^6`. -/
theorem round_trip_near (c : ℚ) (hc : |c| ≤ 1000000) :
    ∃ r, FahrenheitToCelsius (CelsiusToFahrenheit (Float64.fin c)) = Float64.fin r ∧
      |r - c| ≤ 1 / 1000000000 := by
  obtain ⟨hc1, hc2⟩ := abs_le.mp hc
  unfold FahrenheitToCelsius CelsiusToFahrenheit
  rw [lit_nine, lit_five, lit_thirtyTwo]
  -- c * 9
  obtain ⟨v1, e1, l1, u1⟩ := @roundQ_step (c * 9) 24 (by norm_num) (by norm_num)
    (by norm_num; linarith) (by norm_num; linarith)
  norm_num at l1 u1
  rw [(f64_ops_fin c 9).1, e1]
  -- / 5
  obtain ⟨v2, e2, l2, u2⟩ := @roundQ_step (v1 / 5) 21 (by norm_num) (by norm_num)
    (by norm_num; linarith) (by norm_num; linarith)
  norm_num at l2 u2
  rw [(f64_ops_fin v1 5).2.2.2 (by norm_num), e2]
  -- + 32
  obtain ⟨v3, e3, l3, u3⟩ := @roundQ_step (v2 + 32) 21 (by norm_num) (by norm_num)
    (by norm_num; linarith) (by norm_num; linarith)
  norm_num at l3 u3
  rw [(f64_ops_fin v2 32).2.1, e3]
  -- - 32
  obtain ⟨w1, e4, l4, u4⟩ := @roundQ_step (v3 - 32) 21 (by norm_num) (by norm_num)
    (by norm_num; linarith) (by norm_num; linarith)
  norm_num at l4 u4
  rw [(f64_ops_fin v3 32).2.2.1, e4]
  -- * 5
  obtain ⟨w2, e5, l5, u5⟩ := @roundQ_step (w1 * 5) 24 (by norm_num) (by norm_num)
    (by norm_num; linarith) (by norm_num; linarith)
  norm_num at l5 u5
  rw [(f64_ops_fin w1 5).1, e5]
  -- / 9
  obtain ⟨w3, e6, l6, u6⟩ := @roundQ_step (w2 / 9) 20 (by norm_num) (by norm_num)
    (by norm_num; linarith) (by norm_num; linarith)
  norm_num at l6 u6
  rw [(f64_ops_fin w2 9).2.2.2 (by norm_num), e6]
  refine ⟨w3, rfl, ?_⟩
  rw [abs_le]
  constructor <;> linarith

/-- C11 (counterexample): the float64 nearest to 10000000.1 comes back from the
round trip one unit in the last place higher, `2^-29 > 1e-9` away; the Celsius
value `2^1021` overflows to `+Inf` in `c*9.0`; and NaN comes back as NaN. -/
theorem C11_counterexample :
    Float64.lit (100000001 / 10) = Float64.fin (5368709173687091 / 536870912) ∧
    FahrenheitToCelsius (CelsiusToFahrenheit (Float64.fin (5368709173687091 / 536870912)))
      = Float64.fin (5368709173687092 / 536870912) ∧
    ¬ (|(5368709173687092 / 536870912 : ℚ) - 5368709173687091 / 536870912|
        ≤ 1 / 1000000000) ∧
    FahrenheitToCelsius (CelsiusToFahrenheit (Float64.fin (2 ^ 1021))) = Float64.pinf ∧
    FahrenheitToCelsius (CelsiusToFahrenheit Float64.nan) = Float64.nan := by
  refine ⟨by decide!, by decide!, by decide!, by decide!, by decide!⟩

/-- C11 (amended): for every finite Celsius value `c` with `|c| <= 1000000`,
`FahrenheitToCelsius(CelsiusToFahrenheit(c))` is finite and within `1e-9` of
`c`; in exact arithmetic the two formulas are inverse to each other. -/
theorem C11_round_trip_within_tolerance (c : ℚ) (hc : |c| ≤ 1000000) :
    (∃ r, FahrenheitToCelsius (CelsiusToFahrenheit (Float64.fin c)) = Float64.fin r ∧
      |r - c| ≤ 1 / 1000000000) ∧
    (c * 9 / 5 + 32 - 32) * 5 / 9 = c := by
  refine ⟨round_trip_near c hc, ?_⟩
  ring

/-- C11 (witness): the Celsius value 3.7, as the float64 nearest to it. -/
theorem C11_round_trip_within_tolerance_witness :
    (∃ r, FahrenheitToCelsius
        (CelsiusToFahrenheit (Float64.fin (4165829655317709 / 1125899906842624)))
        = Float64.fin r ∧
      |r - 4165829655317709 / 1125899906842624| ≤ 1 / 1000000000) ∧
    ((4165829655317709 / 1125899906842624 : ℚ) * 9 / 5 + 32 - 32) * 5 / 9
      = 4165829655317709 / 1125899906842624 :=
  C11_round_trip_within_tolerance (4165829655317709 / 1125899906842624) (by decide!)

end data

/-! ## C12 and C13: the log writer -/

namespace logging

theorem validateLoop_eq_none_iff (l : List Char) :
    validateLoop l = none ↔
      ∀ c ∈ l, ('a' ≤ c ∧ c ≤ 'z') ∨ ('A' ≤ c ∧ c ≤ 'Z') ∨ ('0' ≤ c ∧ c ≤ '9') := by
  induction l with
  | nil => simp [validateLoop]
  | cons ch rest ih =>
    unfold validateLoop
    by_cases h : ('a' ≤ ch ∧ ch ≤ 'z') ∨ ('A' ≤ ch ∧ ch ≤ 'Z') ∨ ('0' ≤ ch ∧ ch ≤ '9')
    · rw [if_neg (not_not.mpr h), ih]
      constructor
      · intro hall c hc
        rcases List.mem_cons.mp hc with e | e
        · rw [e]; exact h
        · exact hall c e
      · intro hall c hc
        exact hall c (List.mem_cons_of_mem _ hc)
    · rw [if_pos h]
      constructor
      · intro hn; cases hn
      · intro hall
        exact absurd (hall ch (List.mem_cons_self _ _)) h

theorem validateLogFilePrefix_eq_none_iff (pfx : String) :
    validateLogFilePrefix pfx = none ↔
      pfx ≠ "" ∧
      ∀ c ∈ pfx.data, ('a' ≤ c ∧ c ≤ 'z') ∨ ('A' ≤ c ∧ c ≤ 'Z') ∨ ('0' ≤ c ∧ c ≤ '9') := by
  unfold validateLogFilePrefix
  by_cases h : pfx = ""
  · simp [h]
  · rw [if_neg h, validateLoop_eq_none_iff]
    simp [h]

/-- A rune that is not an ASCII letter or digit: every rune above 127, and the
characters '.', '/' and ' ' among others. -/
theorem not_allowed_of_special {c : Char}
    (h : 0x7F < c.toNat ∨ c = '.' ∨ c = '/' ∨ c = ' ') :
    ¬ (('a' ≤ c ∧ c ≤ 'z') ∨ ('A' ≤ c ∧ c ≤ 'Z') ∨ ('0' ≤ c ∧ c ≤ '9')) := by
  rcases h with h | h | h | h
  · intro hc
    have hz : c.toNat ≤ 122 := by
      rcases hc with ⟨_, h2⟩ | ⟨_, h2⟩ | ⟨_, h2⟩
      · exact Char.le_def.mp h2
      · exact le_trans (Char.le_def.mp h2) (by decide)
      · exact le_trans (Char.le_def.mp h2) (by decide)
    omega
  · subst h; decide
  · subst h; decide
  · subst h; decide

/-- C13: `validateLogFilePrefix` returns an error exactly when the prefix is
empty or holds a character outside a-z, A-Z and 0-9; every non-ASCII character,
'.', '/' and space are such characters; and `Initialize` returns that error,
leaving the package variables as they were, whatever the directory is. -/
theorem C13_prefix_validation (pfx : String) :
    (validateLogFilePrefix pfx ≠ none ↔
      (pfx = "" ∨
        ∃ c ∈ pfx.data, ¬ (('a' ≤ c ∧ c ≤ 'z') ∨ ('A' ≤ c ∧ c ≤ 'Z') ∨ ('0' ≤ c ∧ c ≤ '9')))) ∧
    (∀ c ∈ pfx.data, (0x7F < c.toNat ∨ c = '.' ∨ c = '/' ∨ c = ' ') →
      validateLogFilePrefix pfx ≠ none) ∧
    (∀ err, validateLogFilePrefix pfx = some err →
      ∀ (env : Env) (logFileDir : String) (st : Logger),
        Initialize env pfx logFileDir st = (some err, st)) ∧
    validateLogFilePrefix "" = some Error.emptyPrefix ∧
    validateLogFilePrefix "weather.server" = some Error.invalidPrefix ∧
    validateLogFilePrefix "weatherserver" = none := by
  have hiff : validateLogFilePrefix pfx ≠ none ↔
      (pfx = "" ∨
        ∃ c ∈ pfx.data,
          ¬ (('a' ≤ c ∧ c ≤ 'z') ∨ ('A' ≤ c ∧ c ≤ 'Z') ∨ ('0' ≤ c ∧ c ≤ '9'))) := by
    rw [Ne, validateLogFilePrefix_eq_none_iff]
    constructor
    · intro h
      by_cases he : pfx = ""
      · exact Or.inl he
      · right
        by_contra hn
        push_neg at hn
        exact h ⟨he, hn⟩
    · rintro (he | ⟨c, hc, hbad⟩) ⟨hne, hall⟩
      · exact hne he
      · exact hbad (hall c hc)
  refine ⟨hiff, ?_, ?_, by decide, by decide, by decide⟩
  · intro c hc hs
    exact hiff.mpr (Or.inr ⟨c, hc, not_allowed_of_special hs⟩)
  · intro err herr env logFileDir st
    unfold Initialize
    rw [herr]

/-- The computed file name is never empty. -/
theorem getCurrentLogFileName_ne_empty (st : Logger) (now : Date) :
    getCurrentLogFileName st now ≠ "" := by
  intro h
  have hl := congrArg String.length h
  unfold getCurrentLogFileName at hl
  simp only [String.length_append] at hl
  have : (".log" : String).length = 4 := by decide
  have h0 : ("" : String).length = 0 := by decide
  omega

/-- C12 (counterexample): when `os.OpenFile` fails, the first write leaves
`logFile` and `previousLogFileName` as they were although the computed name
differs from the recorded one; and on a later day the open file 3 is closed,
no file is opened in its place and the recorded name stays that of the day
before. -/
theorem C12_counterexample :
    getCurrentLogFileName activeLogger failingEnv.now = "weatherserver.2024.03.07.log" ∧
    activeLogger.previousLogFileName = "" ∧
    logToFile failingEnv activeLogger 1 "Client: 10.0.0.1, URL: /version" InfoLevel
      = (activeLogger,
         [Effect.close none, Effect.openFile "/var/log/weatherserver.2024.03.07.log",
          Effect.printOpenError "/var/log/weatherserver.2024.03.07.log" "permission denied"]) ∧
    logToFile failingEnv
        { activeLogger with
          logFile := some 3, previousLogFileName := "weatherserver.2024.03.06.log",
          output := Output.stdoutAndFile 3 }
        2 "Client: 10.0.0.1, URL: /version" InfoLevel
      = ({ activeLogger with
          logFile := some 3, previousLogFileName := "weatherserver.2024.03.06.log",
          output := Output.stdoutAndFile 3 },
         [Effect.close (some 3), Effect.openFile "/var/log/weatherserver.2024.03.07.log",
          Effect.printOpenError "/var/log/weatherserver.2024.03.07.log" "permission denied"]) := by
  refine ⟨by decide, by decide, by decide, by decide⟩

/-- C12 (amended): for every write through `logToFile` in the Active state, the
file name computed for the current date is prefix + "." + YYYY.MM.DD + ".log".
When it equals the recorded name, the package variables are unchanged and
nothing is closed or opened. When it differs, which includes the first write,
the previous handle is closed and `os.OpenFile` is called: if it succeeds the
new file becomes `logFile`, the recorded name is updated and the line is
written; if it fails the package variables are unchanged and the write is
dropped. So the handle is replaced exactly when the names differ and the new
file can be opened. -/
theorem C12_rotation (env : Env) (st : Logger) (requestId : Nat) (message : String)
    (level : Nat) (hactive : st.log_file_dir ≠ "") :
    getCurrentLogFileName st env.now
      = st.log_file_prefix ++ "." ++ formatDate env.now ++ ".log" ∧
    (st.previousLogFileName = "" →
      getCurrentLogFileName st env.now ≠ st.previousLogFileName) ∧
    (getCurrentLogFileName st env.now = st.previousLogFileName →
      logToFile env st requestId message level
        = (st, [Effect.logrus (dispatchLevel level)
            ("[requestNum=" ++ Nat.repr requestId ++ "] " ++ message)])) ∧
    (getCurrentLogFileName st env.now ≠ st.previousLogFileName →
      ∀ f, env.openFile (st.log_file_dir ++ String.singleton env.pathSeparator
          ++ getCurrentLogFileName st env.now) = Except.ok f →
        (logToFile env st requestId message level).1.logFile = some f ∧
        (logToFile env st requestId message level).1.previousLogFileName
          = getCurrentLogFileName st env.now ∧
        (logToFile env st requestId message level).2
          = [Effect.close st.logFile,
             Effect.openFile (st.log_file_dir ++ String.singleton env.pathSeparator
               ++ getCurrentLogFileName st env.now),
             Effect.logrus (dispatchLevel level)
               ("[requestNum=" ++ Nat.repr requestId ++ "] " ++ message)]) ∧
    (getCurrentLogFileName st env.now ≠ st.previousLogFileName →
      ∀ err, env.openFile (st.log_file_dir ++ String.singleton env.pathSeparator
          ++ getCurrentLogFileName st env.now) = Except.error err →
        logToFile env st requestId message level
          = (st, [Effect.close st.logFile,
             Effect.openFile (st.log_file_dir ++ String.singleton env.pathSeparator
               ++ getCurrentLogFileName st env.now),
             Effect.printOpenError (st.log_file_dir ++ String.singleton env.pathSeparator
               ++ getCurrentLogFileName st env.now) err])) ∧
    ((Effect.close st.logFile ∈ (logToFile env st requestId message level).2 ∧
        ∃ f, env.openFile (st.log_file_dir ++ String.singleton env.pathSeparator
            ++ getCurrentLogFileName st env.now) = Except.ok f ∧
          (logToFile env st requestId message level).1.logFile = some f ∧
          (logToFile env st requestId message level).1.previousLogFileName
            = getCurrentLogFileName st env.now) ↔
      (getCurrentLogFileName st env.now ≠ st.previousLogFileName ∧
        ∃ f, env.openFile (st.log_file_dir ++ String.singleton env.pathSeparator
            ++ getCurrentLogFileName st env.now) = Except.ok f)) := by
  have heq : getCurrentLogFileName st env.now = st.previousLogFileName →
      logToFile env st requestId message level
        = (st, [Effect.logrus (dispatchLevel level)
            ("[requestNum=" ++ Nat.repr requestId ++ "] " ++ message)]) := by
    intro h
    unfold logToFile
    simp only [hactive, if_false, h, ne_eq, not_true_eq_false]
  have hok : getCurrentLogFileName st env.now ≠ st.previousLogFileName →
      ∀ f, env.openFile (st.log_file_dir ++ String.singleton env.pathSeparator
          ++ getCurrentLogFileName st env.now) = Except.ok f →
        logToFile env st requestId message level
          = ({ st with
                logFile := some f
                previousLogFileName := getCurrentLogFileName st env.now
                output := if st.LOG_TO_STDOUT_ALSO then Output.stdoutAndFile f
                  else Output.file f },
             [Effect.close st.logFile,
              Effect.openFile (st.log_file_dir ++ String.singleton env.pathSeparator
                ++ getCurrentLogFileName st env.now),
              Effect.logrus (dispatchLevel level)
                ("[requestNum=" ++ Nat.repr requestId ++ "] " ++ message)]) := by
    intro h f hf
    unfold logToFile
    simp only [hactive, if_false, h, ne_eq, not_false_eq_true, if_true, hf]
  have herr : getCurrentLogFileName st env.now ≠ st.previousLogFileName →
      ∀ err, env.openFile (st.log_file_dir ++ String.singleton env.pathSeparator
          ++ getCurrentLogFileName st env.now) = Except.error err →
        logToFile env st requestId message level
          = (st, [Effect.close st.logFile,
             Effect.openFile (st.log_file_dir ++ String.singleton env.pathSeparator
               ++ getCurrentLogFileName st env.now),
             Effect.printOpenError (st.log_file_dir ++ String.singleton env.pathSeparator
               ++ getCurrentLogFileName st env.now) err]) := by
    intro h err hf
    unfold logToFile
    simp only [hactive, if_false, h, ne_eq, not_false_eq_true, if_true, hf]
  refine ⟨rfl, ?_, heq, ?_, herr, ?_⟩
  · intro h
    rw [h]
    exact getCurrentLogFileName_ne_empty st env.now
  · intro h f hf
    rw [hok h f hf]
    exact ⟨rfl, rfl, rfl⟩
  · constructor
    · rintro ⟨hclose, f, hf, -, -⟩
      refine ⟨?_, f, hf⟩
      intro h
      rw [heq h] at hclose
      simp at hclose
    · rintro ⟨h, f, hf⟩
      rw [hok h f hf]
      exact ⟨by simp, f, hf, rfl, rfl⟩

/-- C12 (witness): the first write of an initialized logger, on 2024-03-07, when
the file can be opened. -/
theorem C12_rotation_witness :
    activeLogger.log_file_dir ≠ "" ∧
    (getCurrentLogFileName activeLogger workingEnv.now
      = activeLogger.log_file_prefix ++ "." ++ formatDate workingEnv.now ++ ".log" ∧
    (activeLogger.previousLogFileName = "" →
      getCurrentLogFileName activeLogger workingEnv.now ≠ activeLogger.previousLogFileName) ∧
    (getCurrentLogFileName activeLogger workingEnv.now = activeLogger.previousLogFileName →
      logToFile workingEnv activeLogger 1 "Starting server on port 8000" InfoLevel
        = (activeLogger, [Effect.logrus (dispatchLevel InfoLevel)
            ("[requestNum=" ++ Nat.repr 1 ++ "] " ++ "Starting server on port 8000")])) ∧
    (getCurrentLogFileName activeLogger workingEnv.now ≠ activeLogger.previousLogFileName →
      ∀ f, workingEnv.openFile (activeLogger.log_file_dir ++ String.singleton workingEnv.pathSeparator
          ++ getCurrentLogFileName activeLogger workingEnv.now) = Except.ok f →
        (logToFile workingEnv activeLogger 1 "Starting server on port 8000" InfoLevel).1.logFile = some f ∧
        (logToFile workingEnv activeLogger 1 "Starting server on port 8000" InfoLevel).1.previousLogFileName
          = getCurrentLogFileName activeLogger workingEnv.now ∧
        (logToFile workingEnv activeLogger 1 "Starting server on port 8000" InfoLevel).2
          = [Effect.close activeLogger.logFile,
             Effect.openFile (activeLogger.log_file_dir ++ String.singleton workingEnv.pathSeparator
               ++ getCurrentLogFileName activeLogger workingEnv.now),
             Effect.logrus (dispatchLevel InfoLevel)
               ("[requestNum=" ++ Nat.repr 1 ++ "] " ++ "Starting server on port 8000")]) ∧
    (getCurrentLogFileName activeLogger workingEnv.now ≠ activeLogger.previousLogFileName →
      ∀ err, workingEnv.openFile (activeLogger.log_file_dir ++ String.singleton workingEnv.pathSeparator
          ++ getCurrentLogFileName activeLogger workingEnv.now) = Except.error err →
        logToFile workingEnv activeLogger 1 "Starting server on port 8000" InfoLevel
          = (activeLogger, [Effect.close activeLogger.logFile,
             Effect.openFile (activeLogger.log_file_dir ++ String.singleton workingEnv.pathSeparator
               ++ getCurrentLogFileName activeLogger workingEnv.now),
             Effect.printOpenError (activeLogger.log_file_dir ++ String.singleton workingEnv.pathSeparator
               ++ getCurrentLogFileName activeLogger workingEnv.now) err])) ∧
    ((Effect.close activeLogger.logFile ∈ (logToFile workingEnv activeLogger 1 "Starting server on port 8000" InfoLevel).2 ∧
        ∃ f, workingEnv.openFile (activeLogger.log_file_dir ++ String.singleton workingEnv.pathSeparator
            ++ getCurrentLogFileName activeLogger workingEnv.now) = Except.ok f ∧
          (logToFile workingEnv activeLogger 1 "Starting server on port 8000" InfoLevel).1.logFile = some f ∧
          (logToFile workingEnv activeLogger 1 "Starting server on port 8000" InfoLevel).1.previousLogFileName
            = getCurrentLogFileName activeLogger workingEnv.now) ↔
      (getCurrentLogFileName activeLogger workingEnv.now ≠ activeLogger.previousLogFileName ∧
        ∃ f, workingEnv.openFile (activeLogger.log_file_dir ++ String.singleton workingEnv.pathSeparator
            ++ getCurrentLogFileName activeLogger workingEnv.now) = Except.ok f))) :=
  ⟨by decide,
   C12_rotation workingEnv activeLogger 1 "Starting server on port 8000" InfoLevel (by decide)⟩

end logging
